import Mathlib

/-!
Verification of the execution-and-interpretation pipeline of
`src/python-service/app.py` (class `PlaywrightTestExecutor`).

Strings are modelled as `List Char` (`Str`). Python's `str.strip`,
`str.splitlines` (restricted to `'\n'` separators), `str.lower` (ASCII),
substring tests (`in`), and slicing are given executable definitions below.
External effects — the `npx playwright` subprocess, the filesystem, the
generative-model calls, `json.loads`, and the regex-based script scan — are
parameters of the embedding (`ExecEnv`), so every theorem quantifies over all
of their possible behaviours.
-/

/-- Python strings, modelled as lists of characters. -/
abbrev Str := List Char

/-- Characters treated as whitespace by Python's default `str.strip`. -/
def pyIsSpace (c : Char) : Bool :=
  c = ' ' || c = '\t' || c = '\n' || c = '\r' || c = '\x0b' || c = '\x0c'

/-- Remove trailing whitespace (the right half of Python `str.strip`). -/
def rstripL : Str → Str
  | [] => []
  | c :: cs =>
    let r := rstripL cs
    if r.isEmpty && pyIsSpace c then [] else c :: r

/-- Python `str.strip()` with no arguments. -/
def pyStrip (s : Str) : Str := rstripL (s.dropWhile pyIsSpace)

/-- Python `str.lower()` (ASCII case folding; the keywords compared against
are all ASCII). -/
def pyLower (s : Str) : Str := s.map Char.toLower

/-- Python's substring test `needle in hay`. The empty needle is contained in
every string, as in Python. -/
def strIn : Str → Str → Bool
  | n, [] => n.isEmpty
  | n, c :: t => n.isPrefixOf (c :: t) || strIn n t

/-- Split a string at every `'\n'`; always returns at least one piece. -/
def splitChar : Str → List Str
  | [] => [[]]
  | c :: t =>
    match splitChar t with
    | [] => [[c]]
    | h :: hs => if c = '\n' then [] :: h :: hs else (c :: h) :: hs

/-- Python `str.splitlines()` restricted to `'\n'` line terminators: the
trailing empty piece produced by a final newline (or by the empty string) is
dropped. -/
def pySplitlines (s : Str) : List Str :=
  let ps := splitChar s
  if ps.getLast? = some [] then ps.dropLast else ps

/-- Python `"\n".join(lines)`. -/
def joinLF : List Str → Str
  | [] => []
  | [l] => l
  | l :: l2 :: ls => l ++ '\n' :: joinLF (l2 :: ls)

/-- Python `sep.join(parts)` for an arbitrary separator. -/
def joinWith (sep : Str) : List Str → Str
  | [] => []
  | [l] => l
  | l :: l2 :: ls => l ++ sep ++ joinWith sep (l2 :: ls)

/-- The markdown fence marker stripped by the script cleaner. -/
def fenceMark : Str := "```".toList

/-- `PlaywrightTestExecutor._clean_script` (app.py lines 179-184): if the
script starts with a fence, drop every line whose stripped form starts with a
fence and rejoin; otherwise strip leading/trailing whitespace. -/
def _clean_script (script : Str) : Str :=
  if fenceMark.isPrefixOf script then
    joinLF ((pySplitlines script).filter (fun l => !(fenceMark.isPrefixOf (pyStrip l))))
  else pyStrip script

/-- Python `s[:n]` on strings. -/
def pyTake (n : Nat) (s : Str) : Str := s.take n

/-- `PlaywrightTestExecutor._format_duration` (app.py lines 186-189).
Python renders `ms/1000` with one decimal via float formatting; here the
decimal digit is obtained by integer truncation of `ms/100`. -/
def _format_duration (ms : Nat) : Str :=
  if ms < 60000 then
    (toString (ms / 1000)).toList ++ '.' :: (toString ((ms / 100) % 10)).toList ++ ['s']
  else
    (toString (ms / 60000)).toList ++ 'm' :: ' ' :: (toString ((ms / 1000) % 60)).toList ++ ['s']

/-- Keywords whose presence in the error text makes a failure `critical`. -/
def criticalKeywords : List Str :=
  ["timeout".toList, "crash".toList, "cannot load".toList,
   "failed to load".toList, "navigation".toList, "net::err".toList]

/-- Keywords whose presence in the test title makes a failure `high`. -/
def highKeywords : List Str :=
  ["login".toList, "checkout".toList, "payment".toList, "submit".toList,
   "form".toList, "authentication".toList, "authorization".toList]

/-- Keywords whose presence in the error text makes a failure `medium`. -/
def mediumKeywords : List Str :=
  ["not found".toList, "not visible".toList, "missing".toList, "locator".toList]

/-- The four valid bug severities. -/
def validSeverities : List Str :=
  ["critical".toList, "high".toList, "medium".toList, "low".toList]

/-- `PlaywrightTestExecutor._categorize_bug_severity` (app.py lines 245-267):
case-insensitive keyword rules in fixed priority order, defaulting to
`high`. -/
def _categorize_bug_severity (error test_name : Str) : Str :=
  let error_lower := pyLower error
  let test_lower := pyLower test_name
  if criticalKeywords.any (fun k => strIn k error_lower) then "critical".toList
  else if highKeywords.any (fun k => strIn k test_lower) then "high".toList
  else if mediumKeywords.any (fun k => strIn k error_lower) then "medium".toList
  else "high".toList

/-- JSON values, the result type of the (abstracted) `json.loads`. -/
inductive Json where
  | null
  | bool (b : Bool)
  | num (n : Int)
  | str (s : Str)
  | arr (elems : List Json)
  | obj (fields : List (Str × Json))

/-- First-match lookup in a JSON object's field list (Python `dict` lookup;
`json.loads` produces unique keys). -/
def jlookup : List (Str × Json) → Str → Option Json
  | [], _ => none
  | (k, v) :: rest, key => if k = key then some v else jlookup rest key

/-- Message of the `AttributeError` a non-`dict` raises on `.get` / item
assignment, and of the `TypeError` raised when iterating a non-iterable.
The exact text is irrelevant; only the fact that an exception is raised is. -/
def eAttr : Str := "AttributeError".toList

def eIter : Str := "TypeError: not iterable".toList

/-- Python `value.get(key, default)`: succeeds on a `dict`, raises
`AttributeError` otherwise. -/
def jget : Json → Str → Json → Except Str Json
  | .obj kvs, k, d => .ok ((jlookup kvs k).getD d)
  | _, _, _ => .error eAttr

/-- Python `for x in value`: lists yield their elements, dicts their keys,
strings their one-character substrings; anything else raises `TypeError`. -/
def iterJ : Json → Except Str (List Json)
  | .arr es => .ok es
  | .obj kvs => .ok (kvs.map (fun kv => Json.str kv.1))
  | .str s => .ok (s.map (fun c => Json.str [c]))
  | _ => .error eIter

/-- Python truthiness of a JSON value. -/
def Json.truthy : Json → Bool
  | .null => false
  | .bool b => b
  | .num n => n != 0
  | .str s => !s.isEmpty
  | .arr es => !es.isEmpty
  | .obj kvs => !kvs.isEmpty

/-- Whether a JSON value is the given string (Python `value == "lit"`). -/
def Json.isStrVal : Json → Str → Bool
  | .str s, t => s = t
  | _, _ => false

/-- Whether a JSON value is a `dict`. -/
def Json.isObjB : Json → Bool
  | .obj _ => true
  | _ => false

mutual

/-- Python `repr(value)` for a JSON value (approximate: string escaping is
omitted; no verified property depends on container renderings). -/
def Json.pyRepr : Json → Str
  | .null => "None".toList
  | .bool true => "True".toList
  | .bool false => "False".toList
  | .num n => (toString n).toList
  | .str s => '\'' :: s ++ ['\'']
  | .arr es => '[' :: jreprElems es ++ [']']
  | .obj kvs => '\x7b' :: jreprFields kvs ++ ['\x7d']

/-- Comma-joined renderings of a list's elements. -/
def jreprElems : List Json → Str
  | [] => []
  | [j] => Json.pyRepr j
  | j :: j2 :: js => Json.pyRepr j ++ ", ".toList ++ jreprElems (j2 :: js)

/-- Comma-joined renderings of an object's fields. -/
def jreprFields : List (Str × Json) → Str
  | [] => []
  | [kv] => '\'' :: kv.1 ++ '\'' :: ':' :: ' ' :: Json.pyRepr kv.2
  | kv :: kv2 :: kvs =>
    ('\'' :: kv.1 ++ '\'' :: ':' :: ' ' :: Json.pyRepr kv.2) ++ ", ".toList
      ++ jreprFields (kv2 :: kvs)

end

/-- Python `str(value)` for a JSON value: identity on strings, `repr`-style
rendering otherwise. -/
def Json.pyStr : Json → Str
  | .str s => s
  | j => j.pyRepr

/-- The marker located by the salvage pass of `_extract_json`:
Python's `'{"suites"'`. -/
def suitesMarker : Str := "\x7b\"suites\"".toList

/-- Python `haystack[a:b]`. -/
def pySlice (cs : Str) (a b : Nat) : Str := (cs.take b).drop a

/-- Python `haystack.find(needle)`: index of the first occurrence. -/
def findSubIdx (needle : Str) : Str → Option Nat
  | [] => if needle.isEmpty then some 0 else none
  | c :: t =>
    if needle.isPrefixOf (c :: t) then some 0
    else (findSubIdx needle t).map (· + 1)

/-- The shrinking loop of `_extract_json`: try to parse `cs[start:e]` for
`e = hi, hi-1, ..., start+1`, returning the first success. -/
def scanEnds (loads : Str → Option Json) (cs : Str) (start : Nat) : Nat → Option Json
  | 0 => none
  | e + 1 =>
    if e + 1 ≤ start then none
    else
      match loads (pySlice cs start (e + 1)) with
      | some j => some j
      | none => scanEnds loads cs start e

/-- `PlaywrightTestExecutor._extract_json` (app.py lines 191-206), with
`json.loads` abstracted as the `loads` oracle (`none` models
`json.JSONDecodeError`). -/
def _extract_json (loads : Str → Option Json) (stdout : Str) : Option Json :=
  if stdout.isEmpty then none
  else
    match loads stdout with
    | some j => some j
    | none =>
      match findSubIdx suitesMarker stdout with
      | none => none
      | some start => scanEnds loads stdout start stdout.length

/-- The list `hi, hi-1, ..., lo` (empty when `hi < lo`); used to state the
shrinking order of `_extract_json`'s salvage pass. -/
def descRange (lo : Nat) : Nat → List Nat
  | 0 => if lo = 0 then [0] else []
  | h + 1 => if h + 1 < lo then [] else (h + 1) :: descRange lo h

/-- One failing test: title and error message, both free text
(spec section 3, "Failure"). -/
structure Failure where
  title : Str
  error : Str
deriving DecidableEq

def kSuites : Str := "suites".toList
def kSpecs : Str := "specs".toList
def kTests : Str := "tests".toList
def kResults : Str := "results".toList
def kTitle : Str := "title".toList
def kStatus : Str := "status".toList
def kError : Str := "error".toList
def kMessage : Str := "message".toList
def sUnnamed : Str := "Unnamed".toList
def sUnknown : Str := "unknown".toList
def sFailedSt : Str := "failed".toList
def sTimedOutSt : Str := "timedOut".toList
def sUnknownError : Str := "Unknown error".toList

/-- The per-result log line `▶ {title} — {status}` of app.py line 831. -/
def resultLogLine (title : Str) (statusJ : Json) : Str :=
  '▶' :: ' ' :: title ++ ' ' :: '—' :: ' ' :: statusJ.pyStr

/-- The failure message of app.py line 835: the error value's `message` field
when it is a `dict`, its stringification otherwise (string values pass
through unchanged either way). -/
def failMsgOf : Json → Str
  | .obj kvs => ((jlookup kvs kMessage).getD (Json.str sUnknownError)).pyStr
  | other => other.pyStr

/-- Accumulator of the suite→spec→test→result walk of app.py lines 825-836:
log lines emitted so far, failures recorded so far, and the pending exception
if the walk raised partway. -/
structure FlatAcc where
  logs : List Str
  failures : List Failure
  err : Option Str
deriving DecidableEq

/-- Sequence a per-element walk over a list, stopping at (and preserving the
partial output of) the first raised exception. -/
def flatSeq (f : Json → FlatAcc) : List Json → FlatAcc
  | [] => ⟨[], [], none⟩
  | x :: xs =>
    let a := f x
    match a.err with
    | some _ => a
    | none =>
      let b := flatSeq f xs
      ⟨a.logs ++ b.logs, a.failures ++ b.failures, b.err⟩

/-- Process one entry of a test's `results` list (inner body of the walk). -/
def flatResult (test : Json) (r : Json) : FlatAcc :=
  match jget test kTitle (Json.str sUnnamed) with
  | .error e => ⟨[], [], some e⟩
  | .ok titleJ =>
    match jget r kStatus (Json.str sUnknown) with
    | .error e => ⟨[], [], some e⟩
    | .ok statusJ =>
      let title := titleJ.pyStr
      let log := resultLogLine title statusJ
      if statusJ.isStrVal sFailedSt || statusJ.isStrVal sTimedOutSt then
        match jget r kError (Json.obj []) with
        | .error e => ⟨[log], [], some e⟩
        | .ok errJ => ⟨[log], [⟨title, failMsgOf errJ⟩], none⟩
      else ⟨[log], [], none⟩

/-- Walk one test: iterate its `results`. -/
def flatTest (test : Json) : FlatAcc :=
  match jget test kResults (Json.arr []) with
  | .error e => ⟨[], [], some e⟩
  | .ok rj =>
    match iterJ rj with
    | .error e => ⟨[], [], some e⟩
    | .ok rs => flatSeq (flatResult test) rs

/-- Walk one spec: iterate its `tests`. -/
def flatSpec (spec : Json) : FlatAcc :=
  match jget spec kTests (Json.arr []) with
  | .error e => ⟨[], [], some e⟩
  | .ok tj =>
    match iterJ tj with
    | .error e => ⟨[], [], some e⟩
    | .ok ts => flatSeq flatTest ts

/-- Walk one suite: iterate its `specs`. -/
def flatSuite (s : Json) : FlatAcc :=
  match jget s kSpecs (Json.arr []) with
  | .error e => ⟨[], [], some e⟩
  | .ok sj =>
    match iterJ sj with
    | .error e => ⟨[], [], some e⟩
    | .ok sps => flatSeq flatSpec sps

/-- The suite→spec→test→result flattening of app.py lines 825-836, applied to
the extracted result tree. -/
def flattenReport (result : Json) : FlatAcc :=
  match jget result kSuites (Json.arr []) with
  | .error e => ⟨[], [], some e⟩
  | .ok sj =>
    match iterJ sj with
    | .error e => ⟨[], [], some e⟩
    | .ok ss => flatSeq flatSuite ss

/-- Total field access used by the spec-side characterization: the field's
value on a `dict` holding it, the default otherwise. -/
def jfield (j : Json) (k : Str) (d : Json) : Json :=
  match j with
  | .obj kvs => (jlookup kvs k).getD d
  | _ => d

/-- The element list of a JSON array, `[]` otherwise. -/
def jelems : Json → List Json
  | .arr es => es
  | _ => []

/-- Per-result piece of the spec-side failure characterization: a singleton
`Failure` exactly when the result's status is `failed` or `timedOut`. -/
def resultFailsOf (t r : Json) : List Failure :=
  let statusJ := jfield r kStatus (Json.str sUnknown)
  if statusJ.isStrVal sFailedSt || statusJ.isStrVal sTimedOutSt then
    [⟨(jfield t kTitle (Json.str sUnnamed)).pyStr,
      failMsgOf (jfield r kError (Json.obj []))⟩]
  else []

/-- Failures of one test, spec side. -/
def testFailsOf (t : Json) : List Failure :=
  (jelems (jfield t kResults (Json.arr []))).flatMap (resultFailsOf t)

/-- Failures of one spec entry, spec side. -/
def specFailsOf (sp : Json) : List Failure :=
  (jelems (jfield sp kTests (Json.arr []))).flatMap testFailsOf

/-- Failures of one suite, spec side. -/
def suiteFailsOf (s : Json) : List Failure :=
  (jelems (jfield s kSpecs (Json.arr []))).flatMap specFailsOf

/-- Spec-side characterization of the flattening (spec section 4.3): the
`(title, message)` pairs of exactly those results whose status is `failed` or
`timedOut`, in report order. -/
def reportFailures (j : Json) : List Failure :=
  (jelems (jfield j kSuites (Json.arr []))).flatMap suiteFailsOf

/-- Well-formed result entry: a `dict`. -/
def wfResult (r : Json) : Bool := r.isObjB

/-- Well-formed test: a `dict` whose `results` (when present) is an array of
well-formed results. -/
def wfTest (t : Json) : Bool :=
  t.isObjB &&
    match jfield t kResults (Json.arr []) with
    | .arr es => es.all wfResult
    | _ => false

/-- Well-formed spec: a `dict` whose `tests` (when present) is an array of
well-formed tests. -/
def wfSpec (sp : Json) : Bool :=
  sp.isObjB &&
    match jfield sp kTests (Json.arr []) with
    | .arr es => es.all wfTest
    | _ => false

/-- Well-formed suite: a `dict` whose `specs` (when present) is an array of
well-formed specs. -/
def wfSuite (s : Json) : Bool :=
  s.isObjB &&
    match jfield s kSpecs (Json.arr []) with
    | .arr es => es.all wfSpec
    | _ => false

/-- Well-formed structured report: a `dict` whose `suites` (when present) is
an array of well-formed suites. -/
def wfReport (j : Json) : Bool :=
  j.isObjB &&
    match jfield j kSuites (Json.arr []) with
    | .arr es => es.all wfSuite
    | _ => false

/-- Behaviour of one external generative call (`model.generate_content`):
either it raises, or it returns response text (spec section 6 treats it as a
black box that "returns a response string or fails"). -/
inductive GenCall where
  | raises (msg : Str)
  | returns (text : Str)

/-- Output shape of `_parse_test_script` (app.py lines 208-243). The regex
scan itself is part of the Python `re` engine's behaviour and is abstracted
as an oracle `Str → ScriptAnalysis` in the environment; no claim under
verification constrains its internals. Unused fields (`assertions`,
`interactions`) are omitted. -/
structure ScriptAnalysis where
  test_names : List Str
  selectors : List Str
  element_texts : List Str

/-- The fields of the caller-supplied `page_info` dict read by the executor
(spec section 3, "PageSnapshot"); `title` is `none` when the key is absent. -/
structure PageInfo where
  title : Option Str
  headings : List Str
  buttons : List Str
  links : List Str

/-- A validated recommendation (spec section 3). `recommendationId` keeps the
raw JSON value the model supplied (Python never coerces it). -/
structure Recommendation where
  recommendationId : Json
  title : Str
  description : Str
  impact : Str
  category : Str

/-- A validated bug report (spec section 3). Fields Python never coerces keep
their raw JSON values. -/
structure Bug where
  bugId : Json
  title : Str
  description : Str
  severity : Str
  steps_to_reproduce : Json
  expected_result : Json
  actual_result : Json
  user_impact : Json

/-- Placeholder for `f"rec_{uuid.uuid4().hex[:12]}"`; ids are random in the
source and no claim inspects them. -/
def freshRecId : Json := Json.str ("rec_model".toList)

/-- Placeholder for `f"bug_{uuid.uuid4().hex[:12]}"`. -/
def freshBugId : Json := Json.str ("bug_model".toList)

def sJsonWord : Str := "json".toList

/-- The markdown-fence cleanup applied to raw generative output (app.py
lines 375-379 and 624-628): when the text starts with a fence, drop every
line that is a fence line or the bare word `json`. -/
def _strip_llm_fences (text : Str) : Str :=
  if fenceMark.isPrefixOf text then
    joinLF ((pySplitlines text).filter
      (fun l => !(fenceMark.isPrefixOf (pyStrip l)) && !(pyStrip l == sJsonWord)))
  else text

def kRecId : Str := "recommendationId".toList
def kDescription : Str := "description".toList
def kImpact : Str := "impact".toList
def kCategory : Str := "category".toList
def kBugId : Str := "bugId".toList
def kSeverity : Str := "severity".toList
def kSteps : Str := "steps_to_reproduce".toList
def kExpected : Str := "expected_result".toList
def kActual : Str := "actual_result".toList
def kUserImpact : Str := "user_impact".toList

def validImpacts : List Str := ["low".toList, "medium".toList, "high".toList]

def validCategories : List Str :=
  ["performance".toList, "security".toList, "accessibility".toList,
   "seo".toList, "ux".toList]

/-- `PlaywrightTestExecutor._validate_recommendation` (app.py lines 483-506).
A non-`dict` candidate, or a present non-string `impact`/`category`, raises
(which the caller's outer handler turns into the fallback). -/
def _validate_recommendation : Json → Except Str Recommendation
  | .obj kvs => do
    let idJ := match jlookup kvs kRecId with
      | some v => if v.truthy then v else freshRecId
      | none => freshRecId
    let titleJ := match jlookup kvs kTitle with
      | some v => if v.truthy then v else Json.str ("Test Recommendation".toList)
      | none => Json.str ("Test Recommendation".toList)
    let descJ := match jlookup kvs kDescription with
      | some v => if v.truthy then v else Json.str ("No description provided".toList)
      | none => Json.str ("No description provided".toList)
    let impact ← match jlookup kvs kImpact with
      | none => Except.ok ("medium".toList)
      | some (.str s) =>
        Except.ok (if validImpacts.contains (pyLower s) then pyLower s else "medium".toList)
      | some _ => Except.error eAttr
    let category ← match jlookup kvs kCategory with
      | none => Except.ok ("ux".toList)
      | some (.str s) =>
        Except.ok (if validCategories.contains (pyLower s) then pyLower s else "ux".toList)
      | some _ => Except.error eAttr
    Except.ok ⟨idJ, pyTake 255 titleJ.pyStr, descJ.pyStr, impact, category⟩
  | _ => .error eAttr

/-- Relevance test of app.py line 642: the lowered target URL occurs in the
candidate's lowered description or title (with an empty URL this is always
true, as in Python). -/
def hasUrlRef (test_url : Str) (r : Recommendation) : Bool :=
  strIn (pyLower test_url) (pyLower r.description)
    || strIn (pyLower test_url) (pyLower r.title)

/-- Relevance test of app.py lines 644-654: some observed heading/button or
script test name longer than 3 characters occurs, case-insensitively, in the
candidate's description or title. Only checked when `page_info` is given. -/
def hasElemRef (page_info : Option PageInfo) (sa : ScriptAnalysis)
    (r : Recommendation) : Bool :=
  match page_info with
  | none => false
  | some pi =>
    let all_elements := pi.headings.take 5 ++ pi.buttons.take 5 ++ sa.test_names.take 5
    all_elements.any fun e =>
      !e.isEmpty && decide (3 < e.length)
        && (strIn (pyLower e) (pyLower r.description)
            || strIn (pyLower e) (pyLower r.title))

/-- The validate-and-filter loop of app.py lines 635-660: validate each
candidate, keep it when failures exist or it passes a relevance test; any
raised exception aborts the whole loop (falling to the caller's fallback). -/
def validateFilter (failures : List Failure) (test_url : Str)
    (page_info : Option PageInfo) (sa : ScriptAnalysis) :
    List Json → Except Str (List Recommendation)
  | [] => .ok []
  | c :: cs =>
    match _validate_recommendation c with
    | .error e => .error e
    | .ok r =>
      match validateFilter failures test_url page_info sa cs with
      | .error e => .error e
      | .ok rest =>
        .ok (if !failures.isEmpty || hasUrlRef test_url r || hasElemRef page_info sa r
             then r :: rest else rest)

/-- Validation without the relevance filter; used to state that when failures
are non-empty every validated candidate is kept. -/
def validateAllRecs : List Json → Except Str (List Recommendation)
  | [] => .ok []
  | c :: cs =>
    match _validate_recommendation c with
    | .error e => .error e
    | .ok r =>
      match validateAllRecs cs with
      | .error e => .error e
      | .ok rest => .ok (r :: rest)

/-- `PlaywrightTestExecutor._create_user_friendly_fallback` (app.py lines
683-769): the deterministic fallback recommendation. -/
def _create_user_friendly_fallback (failures : List Failure) (test_url : Str)
    (page_info : Option PageInfo) (sa : ScriptAnalysis) : Recommendation :=
  let page_title := match page_info with
    | some pi => pi.title.getD []
    | none => []
  let page_name := if page_title.isEmpty then test_url else page_title
  match failures with
  | first :: _ =>
    { recommendationId := freshRecId
      title := "Fix an issue with '".toList ++ first.title ++ "' on your website".toList
      description := "One of our automated tests ('".toList ++ first.title
        ++ "') found an issue on ".toList ++ page_name ++ ". The problem: ".toList
        ++ first.error.take 150
        ++ ". We recommend having a developer review this to ensure all features work properly for your visitors.".toList
      impact := "high".toList
      category := "ux".toList }
  | [] =>
    let pair : List Str × List Str := match page_info with
      | none => ([], [])
      | some pi =>
        let headings := pi.headings.take 3
        let buttons := pi.buttons.take 3
        let element_texts := sa.element_texts
        let matched := (element_texts.take 5).flatMap fun tested =>
          let tl := pyLower tested
          (match headings.find? (fun h => strIn (pyLower h) tl || strIn tl (pyLower h)) with
           | some h => ["the '".toList ++ h ++ "' heading".toList]
           | none => []) ++
          (match buttons.find? (fun b => strIn (pyLower b) tl || strIn tl (pyLower b)) with
           | some b => ["the '".toList ++ b ++ "' button".toList]
           | none => [])
        let actual := if matched.isEmpty then
            (((headings.filter (fun h => !h.isEmpty)).map
                (fun h => "the '".toList ++ h ++ "' heading".toList))
              ++ ((buttons.filter (fun b => !b.isEmpty)).map
                (fun b => "the '".toList ++ b ++ "' button".toList))).take 3
          else matched
        let tested_join := joinWith [' '] (element_texts.map pyLower)
        let untested := ((pi.buttons.take 10).filter
            (fun b => !b.isEmpty && !(strIn (pyLower b) tested_join))).map
          (fun b => '\'' :: b ++ ['\''])
        (actual, untested)
    let actual_elements := pair.1
    let untested_elements := pair.2
    if !untested_elements.isEmpty then
      let untested_list := joinWith (", ".toList) (untested_elements.take 3)
      let elements_tested := if actual_elements.isEmpty then "several elements".toList
        else joinWith (", ".toList) (actual_elements.take 2)
      { recommendationId := freshRecId
        title := "Test additional buttons on ".toList ++ page_name
        description := "Good news! All our tests passed on ".toList ++ test_url
          ++ ". We checked ".toList ++ elements_tested
          ++ " and they work great. However, we noticed these buttons haven't been tested yet: ".toList
          ++ untested_list
          ++ ". Adding tests for these will ensure all clickable elements work correctly for your users.".toList
        impact := "medium".toList
        category := "ux".toList }
    else if !actual_elements.isEmpty then
      let first_element := (actual_elements.head?).getD []
      let elements_list := if actual_elements.length ≤ 3 then
          joinWith (", ".toList) (actual_elements.take 3)
        else ((actual_elements.head?).getD []) ++ ", ".toList
          ++ ((actual_elements.drop 1).head?.getD []) ++ ", and others".toList
      { recommendationId := freshRecId
        title := "Expand testing for ".toList ++ page_name
        description := "All tests passed on ".toList ++ test_url
          ++ "! We successfully verified ".toList ++ elements_list
          ++ ". To make your website even more reliable, consider testing these scenarios: (1) What happens when someone tries to use ".toList
          ++ first_element
          ++ " with invalid information, (2) How it looks and works on mobile phones, (3) Whether keyboard users can navigate easily. This helps ensure a great experience for all your visitors.".toList
        impact := "low".toList
        category := "accessibility".toList }
    else
      { recommendationId := freshRecId
        title := "Continue improving ".toList ++ page_name
        description := "Your website (".toList ++ page_name
          ++ ") passed our initial automated tests. To maintain high quality, we recommend regularly testing key features like forms, buttons, and user workflows. This helps catch issues before your customers do and ensures a smooth experience for everyone visiting ".toList
          ++ test_url ++ ".".toList
        impact := "medium".toList
        category := "ux".toList }

/-- `PlaywrightTestExecutor._ask_gemini_for_recommendations` (app.py lines
508-681). The prompt assembly (lines 522-618) only feeds the opaque
generative call and is not modelled; `loads` abstracts `json.loads`,
`parseScript` abstracts the regex scan, and `genR` is the call's behaviour.
Every exception path ends in the single deterministic fallback. -/
def _ask_gemini_for_recommendations (loads : Str → Option Json)
    (parseScript : Str → ScriptAnalysis) (genR : GenCall)
    (failures : List Failure) (test_url : Str) (test_results : Option Json)
    (script_content : Str) (page_info : Option PageInfo)
    (screenshot_path : Option Str) : List Recommendation :=
  let sa := parseScript script_content
  let fb := _create_user_friendly_fallback failures test_url page_info sa
  match genR with
  | .raises _ => [fb]
  | .returns raw =>
    let text := _strip_llm_fences (pyStrip raw)
    match loads text with
    | none => [fb]
    | some j =>
      let cands := match j with
        | .arr es => es
        | other => [other]
      match validateFilter failures test_url page_info sa (cands.take 5) with
      | .error _ => [fb]
      | .ok validated => if validated.isEmpty then [fb] else validated

/-- Python `re.search(r"'([^']+)'", s)`: the first non-empty run of
non-quote characters enclosed in single quotes. -/
def firstQuoted : Str → Option Str
  | [] => none
  | c :: t =>
    if c = '\'' then
      let run := t.takeWhile (fun d => !(d = '\''))
      if !run.isEmpty && (t.drop run.length).head? = some '\'' then some run
      else firstQuoted t
    else firstQuoted t

/-- `PlaywrightTestExecutor._create_simple_bugs` (app.py lines 432-481): the
deterministic bug generator, one bug per failure, capped at 5. -/
def _create_simple_bugs (failures : List Failure) (test_url : Str)
    (page_info : Option PageInfo) : List Bug :=
  let page_title := match page_info with
    | some pi => pi.title.getD ("the website".toList)
    | none => "the website".toList
  (failures.take 5).map fun f =>
    let test_name := f.title
    let error := f.error
    let severity := _categorize_bug_severity error test_name
    let element_name := (firstQuoted test_name).getD ("a page element".toList)
    let errL := pyLower error
    let quad :=
      if strIn ("timeout".toList) errL then
        ('\'' :: test_name ++ "' is taking too long to respond".toList,
         "When testing '".toList ++ test_name ++ "' on ".toList ++ page_title
           ++ ", the page took longer than expected (over 30 seconds). This might mean the feature is very slow for real users. Check if there are performance issues or if the page is loading correctly.".toList,
         "Users may experience slow loading times or give up waiting".toList,
         "Page or element took too long to load (timeout)".toList)
      else if strIn ("not found".toList) errL || strIn ("locator".toList) errL then
        ("Can't find '".toList ++ element_name ++ "' on ".toList ++ page_title,
         "The automated test couldn't find '".toList ++ element_name
           ++ "' on the page. This could mean: (1) The element was removed or renamed, (2) It's hidden from view, or (3) The page structure changed. Users might not be able to access this feature.".toList,
         "Users may not be able to use this feature if it's missing or hard to find".toList,
         '\'' :: element_name ++ "' was not found on the page".toList)
      else
        ("Issue with '".toList ++ test_name ++ "' on ".toList ++ page_title,
         "The test '".toList ++ test_name ++ "' failed on ".toList ++ test_url
           ++ ". Error: ".toList ++ error.take 150
           ++ ". This needs investigation to ensure the feature works correctly for users.".toList,
         "Users may encounter errors when using this feature".toList,
         "Test failed with an error".toList)
    { bugId := freshBugId
      title := pyTake 255 quad.1
      description := pyTake 800 quad.2.1
      severity := severity
      steps_to_reproduce := Json.arr
        [Json.str ("1. Visit ".toList ++ test_url),
         Json.str ("2. Try to use the '".toList ++ element_name ++ "' feature".toList),
         Json.str ("3. Observe the issue".toList)]
      expected_result := Json.str ("The '".toList ++ element_name
        ++ "' should work correctly".toList)
      actual_result := Json.str quad.2.2.2
      user_impact := Json.str quad.2.2.1 }

/-- Validate one AI bug candidate against its paired failure (app.py lines
394-416): a non-`dict` candidate or a non-string `severity` raises; an
invalid severity is repaired through the severity classifier. -/
def validateBug (test_url : Str) (bug : Json) (fl : Failure) : Except Str Bug :=
  match bug with
  | .obj kvs =>
    match (jlookup kvs kSeverity).getD (Json.str ("high".toList)) with
    | .str s =>
      let sev0 := pyLower s
      let severity := if validSeverities.contains sev0 then sev0
        else _categorize_bug_severity fl.error fl.title
      .ok { bugId := (jlookup kvs kBugId).getD freshBugId
            title := pyTake 255 ((jlookup kvs kTitle).getD (Json.str fl.title)).pyStr
            description := pyTake 800
              ((jlookup kvs kDescription).getD (Json.str ("A test failed".toList))).pyStr
            severity := severity
            steps_to_reproduce := (jlookup kvs kSteps).getD (Json.arr
              [Json.str ("1. Visit ".toList ++ test_url),
               Json.str ("2. Run automated test: ".toList ++ fl.title),
               Json.str ("3. Test fails".toList)])
            expected_result := (jlookup kvs kExpected).getD
              (Json.str ("Test should pass".toList))
            actual_result := (jlookup kvs kActual).getD
              (Json.str ("Test failed".toList))
            user_impact := (jlookup kvs kUserImpact).getD
              (Json.str ("Users may experience issues with this feature".toList)) }
    | _ => .error eAttr
  | _ => .error eAttr

/-- The validation loop of app.py lines 387-417 over candidate/failure pairs
(the `bugs[:5]` slice zipped with the failures, reflecting the
`i >= len(failures)` break); an exception anywhere aborts the loop. -/
def validateBugs (test_url : Str) : List (Json × Failure) → Except Str (List Bug)
  | [] => .ok []
  | (b, f) :: rest =>
    match validateBug test_url b f with
    | .error e => .error e
    | .ok vb =>
      match validateBugs test_url rest with
      | .error e => .error e
      | .ok vs => .ok (vb :: vs)

/-- `PlaywrightTestExecutor._generate_user_friendly_bugs` (app.py lines
269-430): empty failures short-circuit to `[]` before any generative call;
otherwise the call's output is cleaned, parsed and validated, and every
failure path falls to `_create_simple_bugs`. The prompt assembly (lines
283-368) only feeds the opaque call and is not modelled. -/
def _generate_user_friendly_bugs (loads : Str → Option Json) (genB : GenCall)
    (failures : List Failure) (test_url : Str) (page_info : Option PageInfo)
    (script_analysis : ScriptAnalysis) : List Bug :=
  if failures.isEmpty then []
  else
    match genB with
    | .raises _ => _create_simple_bugs failures test_url page_info
    | .returns raw =>
      let text := _strip_llm_fences (pyStrip raw)
      match loads text with
      | none => _create_simple_bugs failures test_url page_info
      | some j =>
        let bs := match j with
          | .arr es => es
          | other => [other]
        match validateBugs test_url ((bs.take 5).zip failures) with
        | .error _ => _create_simple_bugs failures test_url page_info
        | .ok vb => vb

/-- One collected screenshot (filename plus transport-encoded payload); the
directory listing, mtime sort and base64 encoding are filesystem behaviour
and are supplied by the environment. -/
structure Screenshot where
  filename : Str
  b64 : Str
deriving DecidableEq

/-- Outcome of the `subprocess.run` call of app.py line 812 (plus the
temp-file write that precedes it): normal completion with captured streams
and elapsed wall time, `subprocess.TimeoutExpired`, or an exception raised
while writing the temp file / launching the process. -/
inductive SubprocResult where
  | ok (stdout : Str) (stderr : Str) (elapsedMs : Nat)
  | timedOut
  | raisedAtWrite (msg : Str)
  | raisedAtLaunch (msg : Str)

/-- All external behaviour one `run_script` invocation can observe: the
run-scoped resource names, the subprocess outcome, the screenshot-directory
collection result, the two generative-call behaviours, `json.loads`, and the
regex script scan. -/
structure ExecEnv where
  tmpFile : Str
  screenshotDir : Str
  subproc : SubprocResult
  shots : Except Str (List Screenshot)
  genBugs : GenCall
  genRecs : GenCall
  loads : Str → Option Json
  parseScript : Str → ScriptAnalysis

/-- The response dict of `run_script` (spec section 6). The timeout/error
responses omit the `results` and `browser` keys in the source; `results` is
`none` there and the constant `browser` field is not modelled. -/
structure Response where
  success : Bool
  status : Str
  logs : List Str
  bugs : List Bug
  recommendations : List Recommendation
  duration : Str
  screenshots : List Screenshot
  results : Option Json

/-- Whether the run-scoped temp script file and screenshot directory still
exist. -/
structure FsState where
  tmpFileExists : Bool
  screenshotDirExists : Bool
deriving DecidableEq

/-- The `finally` block of app.py lines 976-983: remove the temp file and the
screenshot directory if they exist (its own errors are printed and swallowed;
removal is modelled as succeeding). -/
def runCleanup (_fs : FsState) : FsState := ⟨false, false⟩

/-- Order-preserving deduplication, Python `list(dict.fromkeys(logs))`
(app.py line 895): keep the first occurrence of each element. -/
def dedupFirstAux [DecidableEq α] (seen : List α) : List α → List α
  | [] => []
  | x :: xs =>
    if x ∈ seen then dedupFirstAux seen xs
    else x :: dedupFirstAux (x :: seen) xs

def dedupFirst [DecidableEq α] (l : List α) : List α := dedupFirstAux [] l

def logDirLine (d : Str) : Str := '📁' :: " Screenshot dir: ".toList ++ d

def logSavedLine (t : Str) : Str := '📝' :: " Saved test file: ".toList ++ t

/-- The shell command of app.py line 809. -/
def cmdOf (tmp : Str) : Str :=
  "npx playwright test \"".toList ++ tmp ++ "\" --reporter=json --workers=1".toList

def logExecLine (cmd : Str) : Str := '⚙' :: "️ Executing: ".toList ++ cmd

def logStderrHdr : Str := '⚠' :: "️ STDERR:".toList

def logParseFail : Str := '❌' :: " Could not parse Playwright JSON output.".toList

def logShotsLine (n : Nat) : Str :=
  '📸' :: " Collected ".toList ++ (toString n).toList ++ " screenshots.".toList

def logShotsErr (e : Str) : Str := '⚠' :: "️ Screenshot collection error: ".toList ++ e

def logGenLine (b r : Nat) : Str :=
  '✅' :: " Generated ".toList ++ (toString b).toList ++ " bug reports and ".toList
    ++ (toString r).toList ++ " recommendations.".toList

def logDone : Str := '🏁' :: " Test execution complete.".toList

def logTimeoutLine : Str := '❌' :: " Test execution timeout (300s limit)".toList

def logUnexpected (e : Str) : Str := '❌' :: " Unexpected error: ".toList ++ e

/-- The stderr block appended to the logs by app.py lines 817-821. -/
def stderrBlock (stderr : Str) : List Str :=
  if stderr.isEmpty then []
  else
    let sl := (pySplitlines stderr).take 6
    if sl.isEmpty then [] else logStderrHdr :: sl

/-- The canned critical bug of the timeout path (app.py lines 908-921). -/
def timeoutBug (test_url : Str) : Bug :=
  { bugId := freshBugId
    title := "Website is taking too long to respond".toList
    description := "The automated tests couldn't complete because your website took longer than 5 minutes to respond. This usually means: (1) The server is very slow, (2) The page has heavy content that takes forever to load, or (3) There's a technical issue preventing the page from loading. Impact: Users will likely experience very slow loading times or the page may not load at all. Fix: Check server performance and page load speed.".toList
    severity := "critical".toList
    steps_to_reproduce := Json.arr
      [Json.str ("1. Visit ".toList ++ test_url),
       Json.str ("2. Wait for page to load".toList),
       Json.str ("3. Page takes over 5 minutes or doesn't load".toList)]
    expected_result := Json.str ("Page should load in under 3-5 seconds".toList)
    actual_result := Json.str ("Page took over 5 minutes (test timeout)".toList)
    user_impact := Json.str ("Users cannot access your website due to extreme slowness".toList) }

/-- The synthetic failure handed to the recommendation generator on the
timeout path (app.py line 906). -/
def timeoutFailure : Failure :=
  ⟨"Test Timeout".toList, "Execution exceeded 300s limit".toList⟩

/-- The canned medium bug of the generic error path (app.py lines 944-957). -/
def errorBug (msg : Str) : Bug :=
  { bugId := freshBugId
    title := "Automated testing encountered a technical issue".toList
    description := "The automated testing system ran into an unexpected problem: ".toList
      ++ msg.take 200
      ++ ". This might be a temporary issue with the testing setup rather than your website. Try running the test again. If the problem persists, contact support.".toList
    severity := "medium".toList
    steps_to_reproduce := Json.arr
      [Json.str ("1. Run automated test".toList),
       Json.str ("2. System encounters error".toList),
       Json.str ("3. Test cannot complete".toList)]
    expected_result := Json.str ("Tests should run successfully".toList)
    actual_result := Json.str ("Testing system error".toList)
    user_impact := Json.str ("Unable to verify website quality automatically".toList) }

/-- The synthetic failure handed to the recommendation generator on the
generic error path (app.py line 942). -/
def errorFailure (msg : Str) : Failure := ⟨"Execution Error".toList, msg⟩

/-- The `except subprocess.TimeoutExpired` return of app.py lines 904-939;
`logs` is the accumulation up to and including the timeout log line, and
`duration` is still the `"0s"` initial value because app.py line 813 never
ran. -/
def timeoutReturn (env : ExecEnv) (script : Str) (test_url : Str)
    (page_info : Option PageInfo) (logs : List Str) : Response :=
  { success := false
    status := "timeout".toList
    logs := logs
    bugs := [timeoutBug test_url]
    recommendations := _ask_gemini_for_recommendations env.loads env.parseScript
      env.genRecs [timeoutFailure] test_url none script page_info none
    duration := "0s".toList
    screenshots := []
    results := none }

/-- The `except Exception` return of app.py lines 940-975: append the
unexpected-error log line, synthesize the canned bug, and still generate
recommendations. -/
def errorReturn (env : ExecEnv) (script : Str) (test_url : Str)
    (page_info : Option PageInfo) (logs : List Str) (duration : Str)
    (msg : Str) : Response :=
  { success := false
    status := "error".toList
    logs := logs ++ [logUnexpected msg]
    bugs := [errorBug msg]
    recommendations := _ask_gemini_for_recommendations env.loads env.parseScript
      env.genRecs [errorFailure msg] test_url none script page_info none
    duration := duration
    screenshots := []
    results := none }

/-- The normal-completion response of app.py lines 892-902: the raw log
accumulation is deduplicated order-preservingly. -/
def normalFinish (rawLogs : List Str) (bugs : List Bug)
    (recs : List Recommendation) (duration : Str)
    (screenshots : List Screenshot) (result : Option Json) (status : Str) :
    Response :=
  { success := true
    status := status
    logs := dedupFirst rawLogs
    bugs := bugs
    recommendations := recs
    duration := duration
    screenshots := screenshots
    results := result }

/-- The tail of the normal path (app.py lines 841-902): screenshot
collection, status decision, bug and recommendation generation, final log
lines, response assembly. -/
def normalTail (env : ExecEnv) (script : Str) (test_url : Str)
    (page_info : Option PageInfo) (logs3 : List Str) (duration : Str)
    (result : Option Json) (failures : List Failure) : Response :=
  let pairSL : List Screenshot × List Str := match env.shots with
    | .ok files => (files, logs3 ++ [logShotsLine files.length])
    | .error e => ([], logs3 ++ [logShotsErr e])
  let screenshots := pairSL.1
  let logs4 := pairSL.2
  let status := if failures.isEmpty then "passed".toList else "failed".toList
  let sa := env.parseScript script
  let bugs := _generate_user_friendly_bugs env.loads env.genBugs failures
    test_url page_info sa
  let recs := _ask_gemini_for_recommendations env.loads env.parseScript
    env.genRecs failures test_url result script page_info
    ((screenshots.head?).map (fun s => s.filename))
  let rawLogs := logs4 ++ [logGenLine bugs.length recs.length, logDone]
  normalFinish rawLogs bugs recs duration screenshots result status

/-- `PlaywrightTestExecutor.run_script` (app.py lines 771-983), with its
filesystem effects made explicit: returns the response together with the
final existence state of the run-scoped temp file and screenshot directory
(both created up front, both removed by the `finally` block on every path).
The composed screenshot-hook text (lines 783-799) is written to the temp
file and never read back, so its content is not modelled. -/
def run_script_full (env : ExecEnv) (script_content : Str) (test_url : Str)
    (page_info : Option PageInfo) : Response × FsState :=
  let script := _clean_script script_content
  let logs0 := [logDirLine env.screenshotDir]
  match env.subproc with
  | .raisedAtWrite msg =>
    (errorReturn env script test_url page_info logs0 ("0s".toList) msg,
     runCleanup ⟨true, true⟩)
  | .raisedAtLaunch msg =>
    let logs := logs0 ++ [logSavedLine env.tmpFile, logExecLine (cmdOf env.tmpFile)]
    (errorReturn env script test_url page_info logs ("0s".toList) msg,
     runCleanup ⟨true, true⟩)
  | .timedOut =>
    let logs := logs0 ++ [logSavedLine env.tmpFile, logExecLine (cmdOf env.tmpFile),
      logTimeoutLine]
    (timeoutReturn env script test_url page_info logs, runCleanup ⟨true, true⟩)
  | .ok stdout stderr elapsedMs =>
    let logs1 := logs0 ++ [logSavedLine env.tmpFile, logExecLine (cmdOf env.tmpFile)]
    let duration := _format_duration elapsedMs
    let logs2 := logs1 ++ stderrBlock stderr
    let result := _extract_json env.loads stdout
    match result with
    | some j =>
      if j.truthy then
        let fa := flattenReport j
        match fa.err with
        | some e =>
          (errorReturn env script test_url page_info (logs2 ++ fa.logs) duration e,
           runCleanup ⟨true, true⟩)
        | none =>
          (normalTail env script test_url page_info (logs2 ++ fa.logs) duration
            (some j) fa.failures, runCleanup ⟨true, true⟩)
      else
        (normalTail env script test_url page_info
          (logs2 ++ [logParseFail, pyTake 800 stdout]) duration (some j) [],
         runCleanup ⟨true, true⟩)
    | none =>
      (normalTail env script test_url page_info
        (logs2 ++ [logParseFail, pyTake 800 stdout]) duration none [],
       runCleanup ⟨true, true⟩)

/-- The response alone (callers of `run_script` see only the returned dict). -/
def run_script (env : ExecEnv) (script_content : Str) (test_url : Str)
    (page_info : Option PageInfo) : Response :=
  (run_script_full env script_content test_url page_info).1

/-- A generative call that always raises (fixture). -/
def genRaise : GenCall := GenCall.raises []

/-- A `json.loads` oracle that fails on everything (fixture). -/
def loadsNone : Str → Option Json := fun _ => none

/-- A script scan returning nothing (fixture). -/
def parseNone : Str → ScriptAnalysis := fun _ => ⟨[], [], []⟩

/-- Environment whose subprocess times out (fixture). -/
def envTimeoutEx : ExecEnv :=
  ⟨"t.spec.js".toList, "shots".toList, SubprocResult.timedOut, .ok [],
   genRaise, genRaise, loadsNone, parseNone⟩

/-- Valid JSON text whose parse is a report with a non-`dict` suite entry
(fixture for the error path reached after partial log accumulation). -/
def dupStdout : Str := "\x7b\"suites\": [5]\x7d".toList

/-- The parse of `dupStdout`. -/
def dupJson : Json := Json.obj [(kSuites, Json.arr [Json.num 5])]

/-- Environment whose runner emits a duplicated stderr line and a report that
makes the flattening raise (fixture). -/
def envLogsDup : ExecEnv :=
  ⟨"t.spec.js".toList, "shots".toList,
   SubprocResult.ok dupStdout ("x\nx".toList) 1000, .ok [],
   genRaise, genRaise,
   (fun s => if s = dupStdout then some dupJson else none), parseNone⟩

/-- A well-formed report with one failed result (message in a structured
error object) and one passed result (fixture). -/
def reportFailedJson : Json :=
  Json.obj [(kSuites, Json.arr [Json.obj [(kSpecs, Json.arr [Json.obj
    [(kTests, Json.arr [Json.obj
      [(kTitle, Json.str ("t1".toList)),
       (kResults, Json.arr
         [Json.obj [(kStatus, Json.str sFailedSt),
                    (kError, Json.obj [(kMessage, Json.str ("boom".toList))])],
          Json.obj [(kStatus, Json.str ("passed".toList))]])]])]])]])]

/-- Stand-in stdout text that the fixture oracle parses to
`reportFailedJson`. -/
def failedStdout : Str := "\x7b\"suites\": [REPORT]\x7d".toList

/-- Environment producing a completed run with one failing test (fixture). -/
def envRunFailed : ExecEnv :=
  ⟨"t.spec.js".toList, "shots".toList,
   SubprocResult.ok failedStdout [] 500, .ok [],
   genRaise, genRaise,
   (fun s => if s = failedStdout then some reportFailedJson else none), parseNone⟩

/-- A recommendation candidate that references the target URL (fixture). -/
def recCand : Json :=
  Json.obj [(kTitle, Json.str ("Visit example.com today".toList)),
            (kDescription, Json.str ("d".toList))]

/-- The validated form of `recCand` (fixture). -/
def recCandOut : Recommendation :=
  ⟨freshRecId, "Visit example.com today".toList, "d".toList,
   "medium".toList, "ux".toList⟩

/-! ## Helper lemmas -/

lemma pyIsSpace_bq : pyIsSpace '`' = false := by decide

lemma fenceMark_cons : fenceMark = '`' :: '`' :: '`' :: [] := by decide

lemma rstripL_cons_of_nospace {c : Char} (cs : Str) (h : pyIsSpace c = false) :
    rstripL (c :: cs) = c :: rstripL cs := by
  simp [rstripL, h]

lemma fence_pre_ex {l : Str} (h : fenceMark.isPrefixOf l = true) :
    ∃ t, l = '`' :: '`' :: '`' :: t := by
  rw [fenceMark_cons] at h
  rcases l with _ | ⟨c1, _ | ⟨c2, _ | ⟨c3, t⟩⟩⟩ <;>
    simp [List.isPrefixOf] at h
  obtain ⟨h1, h2, h3⟩ := h
  exact ⟨t, by rw [← h1, ← h2, ← h3]⟩

lemma strip_fence_pre {l : Str} (h : fenceMark.isPrefixOf l = true) :
    fenceMark.isPrefixOf (pyStrip l) = true := by
  obtain ⟨t, rfl⟩ := fence_pre_ex h
  unfold pyStrip
  rw [List.dropWhile]
  simp only [pyIsSpace_bq]
  rw [rstripL_cons_of_nospace _ pyIsSpace_bq, rstripL_cons_of_nospace _ pyIsSpace_bq,
    rstripL_cons_of_nospace _ pyIsSpace_bq, fenceMark_cons]
  simp [List.isPrefixOf]

lemma dropWhile_idem (p : α → Bool) (l : List α) :
    (l.dropWhile p).dropWhile p = l.dropWhile p := by
  induction l with
  | nil => rfl
  | cons c cs ih =>
    by_cases h : p c
    · simp [List.dropWhile_cons, h, ih]
    · simp [List.dropWhile_cons, h]

lemma rstripL_idem (l : Str) : rstripL (rstripL l) = rstripL l := by
  induction l with
  | nil => rfl
  | cons c cs ih =>
    by_cases hg : ((rstripL cs).isEmpty && pyIsSpace c) = true
    · simp [rstripL, hg]
    · have hc : rstripL (c :: cs) = c :: rstripL cs := by
        simp only [rstripL]
        rw [if_neg (by simp [hg])]
      rw [hc]
      simp only [rstripL]
      rw [ih, if_neg (by simp [hg])]

lemma dropWhile_head_false (p : α → Bool) (l : List α) :
    l.dropWhile p = [] ∨ ∃ c t, l.dropWhile p = c :: t ∧ p c = false := by
  induction l with
  | nil => exact Or.inl rfl
  | cons c cs ih =>
    by_cases h : p c
    · simpa [List.dropWhile_cons, h] using ih
    · exact Or.inr ⟨c, cs, by simp [List.dropWhile_cons, h], by simp [h]⟩

lemma rstripL_nil_or_cons (c : Char) (cs : Str) :
    rstripL (c :: cs) = [] ∨ rstripL (c :: cs) = c :: rstripL cs := by
  by_cases h : ((rstripL cs).isEmpty && pyIsSpace c) = true
  · left
    simp [rstripL, h]
  · right
    simp only [rstripL]
    rw [if_neg (by simp [h])]

lemma pyStrip_idem (s : Str) : pyStrip (pyStrip s) = pyStrip s := by
  unfold pyStrip
  have hdw : (rstripL (s.dropWhile pyIsSpace)).dropWhile pyIsSpace
      = rstripL (s.dropWhile pyIsSpace) := by
    rcases dropWhile_head_false pyIsSpace s with h | ⟨c, t, heq, hpc⟩
    · rw [h]; rfl
    · rw [heq]
      rcases rstripL_nil_or_cons c t with h2 | h2
      · rw [h2]; rfl
      · rw [h2, List.dropWhile, hpc]
  rw [hdw, rstripL_idem]

lemma fence_pre_append_cons {l : Str} {c : Char} (rest : Str)
    (hc : ('`' == c) = false) (hl : fenceMark.isPrefixOf l = false) :
    fenceMark.isPrefixOf (l ++ c :: rest) = false := by
  rw [fenceMark_cons] at hl ⊢
  rcases l with _ | ⟨a, _ | ⟨b, _ | ⟨d, t⟩⟩⟩
  · simp [List.isPrefixOf, hc]
  · simp [List.isPrefixOf, hc]
  · simp [List.isPrefixOf, hc]
  · simp only [List.cons_append, List.isPrefixOf] at hl ⊢
    simpa using hl

lemma joinLF_not_fence (ls : List Str)
    (h : ∀ l ∈ ls, fenceMark.isPrefixOf (pyStrip l) = false) :
    fenceMark.isPrefixOf (joinLF ls) = false := by
  match ls with
  | [] => decide
  | [l] =>
    have hl := h l (by simp)
    show fenceMark.isPrefixOf l = false
    cases hb : fenceMark.isPrefixOf l with
    | false => rfl
    | true =>
      have hsp := strip_fence_pre hb
      rw [hl] at hsp
      exact absurd hsp (by decide)
  | l :: l2 :: ls' =>
    have hl : fenceMark.isPrefixOf l = false := by
      cases hb : fenceMark.isPrefixOf l with
      | false => rfl
      | true =>
        have hsp := strip_fence_pre hb
        rw [h l (by simp)] at hsp
        exact absurd hsp (by decide)
    show fenceMark.isPrefixOf (l ++ '\n' :: joinLF (l2 :: ls')) = false
    exact fence_pre_append_cons _ (by decide) hl

lemma clean_fenced_not_fence {s : Str} (h : fenceMark.isPrefixOf s = true) :
    fenceMark.isPrefixOf (_clean_script s) = false := by
  rw [_clean_script, if_pos h]
  apply joinLF_not_fence
  intro l hl
  have := (List.mem_filter.mp hl).2
  simpa using this

/-! ## C7 -/

/-- C7 (amended): the script cleaner is idempotent on every script whose
whitespace-stripped text does not begin with a fence; on a fenced script a
second application additionally strips the output (so idempotence holds there
only when the de-fenced body is already stripped). Shape preservation holds
as originally claimed: a fenced script keeps every non-fence line verbatim,
an unfenced script is only stripped. -/
theorem C7_clean_script_amended : ∀ s : Str,
    (fenceMark.isPrefixOf (pyStrip s) = false →
      _clean_script (_clean_script s) = _clean_script s) ∧
    (fenceMark.isPrefixOf s = true →
      _clean_script s
        = joinLF ((pySplitlines s).filter
            (fun l => !(fenceMark.isPrefixOf (pyStrip l))))) ∧
    (fenceMark.isPrefixOf s = false → _clean_script s = pyStrip s) ∧
    (fenceMark.isPrefixOf s = true →
      _clean_script (_clean_script s) = pyStrip (_clean_script s)) := by
  intro s
  refine ⟨?_, ?_, ?_, ?_⟩
  · intro h
    have hs : fenceMark.isPrefixOf s = false := by
      cases hb : fenceMark.isPrefixOf s with
      | false => rfl
      | true =>
        have hsp := strip_fence_pre hb
        rw [h] at hsp
        exact absurd hsp (by decide)
    have e1 : _clean_script s = pyStrip s := by
      rw [_clean_script, if_neg (by rw [hs]; exact Bool.false_ne_true)]
    have e2 : _clean_script (pyStrip s) = pyStrip (pyStrip s) := by
      rw [_clean_script, if_neg (by rw [h]; exact Bool.false_ne_true)]
    rw [e1, e2, pyStrip_idem]
  · intro h
    rw [_clean_script, if_pos h]
  · intro h
    rw [_clean_script, if_neg (by rw [h]; exact Bool.false_ne_true)]
  · intro h
    have hnf := clean_fenced_not_fence h
    conv_lhs => rw [_clean_script]
    rw [if_neg (by rw [hnf]; exact Bool.false_ne_true)]

/-- C7 witness: the amended idempotence applied to a concrete unfenced
script. -/
theorem C7_witness :
    _clean_script (_clean_script ("  x ".toList)) = _clean_script ("  x ".toList) :=
  (C7_clean_script_amended ("  x ".toList)).1 (by decide)

/-- C7 counterexample: cleaning is not idempotent as claimed — a fenced
script whose body line carries trailing whitespace cleans to `"foo "`, and a
second application strips it to `"foo"`. -/
theorem C7_counterexample :
    _clean_script (_clean_script ("```\nfoo \n```".toList))
      ≠ _clean_script ("```\nfoo \n```".toList) := by decide

/-! ## Projection lemmas for the response builders -/

lemma timeoutReturn_status (env : ExecEnv) (s u : Str) (pi : Option PageInfo)
    (logs : List Str) : (timeoutReturn env s u pi logs).status = "timeout".toList := rfl

lemma timeoutReturn_success (env : ExecEnv) (s u : Str) (pi : Option PageInfo)
    (logs : List Str) : (timeoutReturn env s u pi logs).success = false := rfl

lemma timeoutReturn_duration (env : ExecEnv) (s u : Str) (pi : Option PageInfo)
    (logs : List Str) : (timeoutReturn env s u pi logs).duration = "0s".toList := rfl

lemma timeoutReturn_logs (env : ExecEnv) (s u : Str) (pi : Option PageInfo)
    (logs : List Str) : (timeoutReturn env s u pi logs).logs = logs := rfl

lemma timeoutReturn_recs (env : ExecEnv) (s u : Str) (pi : Option PageInfo)
    (logs : List Str) : (timeoutReturn env s u pi logs).recommendations
      = _ask_gemini_for_recommendations env.loads env.parseScript env.genRecs
          [timeoutFailure] u none s pi none := rfl

lemma errorReturn_status (env : ExecEnv) (s u : Str) (pi : Option PageInfo)
    (logs : List Str) (d msg : Str) :
    (errorReturn env s u pi logs d msg).status = "error".toList := rfl

lemma errorReturn_success (env : ExecEnv) (s u : Str) (pi : Option PageInfo)
    (logs : List Str) (d msg : Str) :
    (errorReturn env s u pi logs d msg).success = false := rfl

lemma errorReturn_duration (env : ExecEnv) (s u : Str) (pi : Option PageInfo)
    (logs : List Str) (d msg : Str) :
    (errorReturn env s u pi logs d msg).duration = d := rfl

lemma errorReturn_recs (env : ExecEnv) (s u : Str) (pi : Option PageInfo)
    (logs : List Str) (d msg : Str) :
    (errorReturn env s u pi logs d msg).recommendations
      = _ask_gemini_for_recommendations env.loads env.parseScript env.genRecs
          [errorFailure msg] u none s pi none := rfl

lemma normalFinish_logs (rawLogs : List Str) (bugs : List Bug)
    (recs : List Recommendation) (d : Str) (shots : List Screenshot)
    (res : Option Json) (st : Str) :
    (normalFinish rawLogs bugs recs d shots res st).logs = dedupFirst rawLogs := rfl

lemma normalTail_success (env : ExecEnv) (s u : Str) (pi : Option PageInfo)
    (logs : List Str) (d : Str) (res : Option Json) (fails : List Failure) :
    (normalTail env s u pi logs d res fails).success = true := rfl

lemma normalTail_status (env : ExecEnv) (s u : Str) (pi : Option PageInfo)
    (logs : List Str) (d : Str) (res : Option Json) (fails : List Failure) :
    (normalTail env s u pi logs d res fails).status
      = (if fails.isEmpty then "passed".toList else "failed".toList) := rfl

lemma normalTail_duration (env : ExecEnv) (s u : Str) (pi : Option PageInfo)
    (logs : List Str) (d : Str) (res : Option Json) (fails : List Failure) :
    (normalTail env s u pi logs d res fails).duration = d := rfl

/-- Every run returns through one of the three response builders; on the
timeout path the logs are exactly the four fixed progress lines. -/
lemma run_cases (env : ExecEnv) (sc url : Str) (pi : Option PageInfo) :
    (∃ logs d msg, run_script env sc url pi
      = errorReturn env (_clean_script sc) url pi logs d msg) ∨
    (run_script env sc url pi
      = timeoutReturn env (_clean_script sc) url pi
          [logDirLine env.screenshotDir, logSavedLine env.tmpFile,
           logExecLine (cmdOf env.tmpFile), logTimeoutLine]) ∨
    (∃ logs d res fails, run_script env sc url pi
      = normalTail env (_clean_script sc) url pi logs d res fails) := by
  rcases env with ⟨tmp, dir, sub, shots, gb, gr, lo, ps⟩
  cases sub with
  | raisedAtWrite msg =>
    exact Or.inl ⟨_, _, _, rfl⟩
  | raisedAtLaunch msg =>
    exact Or.inl ⟨_, _, _, rfl⟩
  | timedOut =>
    exact Or.inr (Or.inl rfl)
  | ok stdout stderr ms =>
    simp only [run_script, run_script_full]
    rcases h1 : _extract_json lo stdout with _ | j
    · simp only [h1]
      exact Or.inr (Or.inr ⟨_, _, _, _, rfl⟩)
    · simp only [h1]
      by_cases ht : j.truthy
      · simp only [ht, if_true]
        rcases h2 : (flattenReport j).err with _ | e
        · simp only [h2]
          exact Or.inr (Or.inr ⟨_, _, _, _, rfl⟩)
        · simp only [h2]
          exact Or.inl ⟨_, _, _, rfl⟩
      · simp only [Bool.not_eq_true] at ht
        simp only [ht, Bool.false_eq_true, if_false]
        exact Or.inr (Or.inr ⟨_, _, _, _, rfl⟩)

/-! ## C5 -/

/-- C5: the severity classifier is a pure total function into the four
severities, applying the case-insensitive keyword rules in fixed priority
order (critical error keywords, then high title keywords, then medium error
keywords, then the `high` default). -/
theorem C5_severity_classifier : ∀ error test_name : Str,
    _categorize_bug_severity error test_name ∈ validSeverities ∧
    (criticalKeywords.any (fun k => strIn k (pyLower error)) = true →
      _categorize_bug_severity error test_name = "critical".toList) ∧
    (criticalKeywords.any (fun k => strIn k (pyLower error)) = false →
      highKeywords.any (fun k => strIn k (pyLower test_name)) = true →
      _categorize_bug_severity error test_name = "high".toList) ∧
    (criticalKeywords.any (fun k => strIn k (pyLower error)) = false →
      highKeywords.any (fun k => strIn k (pyLower test_name)) = false →
      mediumKeywords.any (fun k => strIn k (pyLower error)) = true →
      _categorize_bug_severity error test_name = "medium".toList) ∧
    (criticalKeywords.any (fun k => strIn k (pyLower error)) = false →
      highKeywords.any (fun k => strIn k (pyLower test_name)) = false →
      mediumKeywords.any (fun k => strIn k (pyLower error)) = false →
      _categorize_bug_severity error test_name = "high".toList) := by
  intro e t
  refine ⟨?_, ?_, ?_, ?_, ?_⟩
  · unfold _categorize_bug_severity
    cases h1 : criticalKeywords.any (fun k => strIn k (pyLower e)) <;>
      cases h2 : highKeywords.any (fun k => strIn k (pyLower t)) <;>
      cases h3 : mediumKeywords.any (fun k => strIn k (pyLower e)) <;>
      simp [h1, h2, h3, validSeverities]
  · intro h1
    simp [_categorize_bug_severity, h1]
  · intro h1 h2
    simp [_categorize_bug_severity, h1, h2]
  · intro h1 h2 h3
    simp [_categorize_bug_severity, h1, h2, h3]
  · intro h1 h2 h3
    simp [_categorize_bug_severity, h1, h2, h3]

/-- C5 witness: the classifier applied at concrete inputs exercising rule 1
with its hypothesis discharged concretely. -/
theorem C5_witness :
    _categorize_bug_severity ("page crash detected".toList) ("checkout".toList)
      = "critical".toList :=
  (C5_severity_classifier ("page crash detected".toList) ("checkout".toList)).2.1
    (by decide)

/-! ## C2 -/

/-- C2: when the subprocess exceeds the 300-second ceiling the response has
status `timeout`, exactly the one canned critical bug, empty screenshots, and
the temp script file and screenshot directory are removed by the `finally`
cleanup. -/
theorem C2_timeout_path : ∀ (tmp dir : Str) (shots : Except Str (List Screenshot))
    (gb gr : GenCall) (lo : Str → Option Json) (ps : Str → ScriptAnalysis)
    (sc url : Str) (pi : Option PageInfo),
    (run_script_full ⟨tmp, dir, SubprocResult.timedOut, shots, gb, gr, lo, ps⟩
        sc url pi).1.status = "timeout".toList ∧
    (run_script_full ⟨tmp, dir, SubprocResult.timedOut, shots, gb, gr, lo, ps⟩
        sc url pi).1.bugs = [timeoutBug url] ∧
    (timeoutBug url).severity = "critical".toList ∧
    (run_script_full ⟨tmp, dir, SubprocResult.timedOut, shots, gb, gr, lo, ps⟩
        sc url pi).1.screenshots = [] ∧
    (run_script_full ⟨tmp, dir, SubprocResult.timedOut, shots, gb, gr, lo, ps⟩
        sc url pi).2.tmpFileExists = false ∧
    (run_script_full ⟨tmp, dir, SubprocResult.timedOut, shots, gb, gr, lo, ps⟩
        sc url pi).2.screenshotDirExists = false := by
  intro tmp dir shots gb gr lo ps sc url pi
  exact ⟨rfl, rfl, rfl, rfl, rfl, rfl⟩

/-! ## C10 -/

/-- C10: the response's success flag is true exactly when the status is
`passed` or `failed`, and false exactly when it is `timeout` or `error`; in
particular a run with failing tests still reports success. -/
theorem C10_success_iff_status : ∀ (env : ExecEnv) (sc url : Str)
    (pi : Option PageInfo),
    ((run_script env sc url pi).success = true ↔
      ((run_script env sc url pi).status = "passed".toList ∨
       (run_script env sc url pi).status = "failed".toList)) ∧
    ((run_script env sc url pi).success = false ↔
      ((run_script env sc url pi).status = "timeout".toList ∨
       (run_script env sc url pi).status = "error".toList)) := by
  intro env sc url pi
  rcases run_cases env sc url pi with ⟨logs, d, msg, heq⟩ | heq | ⟨logs, d, res, fails, heq⟩
  · rw [heq, errorReturn_success, errorReturn_status]
    exact ⟨iff_of_false (by decide) (by decide), iff_of_true rfl (Or.inr rfl)⟩
  · rw [heq, timeoutReturn_success, timeoutReturn_status]
    exact ⟨iff_of_false (by decide) (by decide), iff_of_true rfl (Or.inl rfl)⟩
  · rw [heq, normalTail_success, normalTail_status]
    by_cases hf : fails.isEmpty
    · rw [if_pos hf]
      exact ⟨iff_of_true rfl (Or.inl rfl), iff_of_false (by decide) (by decide)⟩
    · rw [if_neg hf]
      exact ⟨iff_of_true rfl (Or.inr rfl), iff_of_false (by decide) (by decide)⟩

/-- C10 witness: a concrete run whose tests fail still reports
`success = true`. -/
theorem C10_witness :
    (run_script envRunFailed ("s".toList) ("u".toList) none).success = true :=
  ((C10_success_iff_status envRunFailed ("s".toList) ("u".toList) none).1).mpr
    (Or.inr (by decide))

/-! ## Deduplication lemmas -/

lemma mem_dedupFirstAux [DecidableEq α] (l : List α) :
    ∀ (seen : List α) (a : α), a ∈ dedupFirstAux seen l ↔ a ∈ l ∧ a ∉ seen := by
  induction l with
  | nil => intro seen a; simp [dedupFirstAux]
  | cons x xs ih =>
    intro seen a
    by_cases hx : x ∈ seen
    · rw [dedupFirstAux, if_pos hx, ih]
      constructor
      · rintro ⟨ha, hs⟩
        exact ⟨List.mem_cons_of_mem _ ha, hs⟩
      · rintro ⟨ha, hs⟩
        rcases List.mem_cons.mp ha with rfl | ha
        · exact absurd hx hs
        · exact ⟨ha, hs⟩
    · rw [dedupFirstAux, if_neg hx]
      constructor
      · intro h
        rcases List.mem_cons.mp h with rfl | h
        · exact ⟨List.mem_cons_self _ _, hx⟩
        · have h2 := (ih _ _).mp h
          exact ⟨List.mem_cons_of_mem _ h2.1,
            fun hs => h2.2 (List.mem_cons_of_mem _ hs)⟩
      · rintro ⟨ha, hs⟩
        rcases List.mem_cons.mp ha with rfl | ha
        · exact List.mem_cons_self _ _
        · by_cases hax : a = x
          · subst hax
            exact List.mem_cons_self _ _
          · refine List.mem_cons_of_mem _ ((ih _ _).mpr ⟨ha, ?_⟩)
            intro hc
            rcases List.mem_cons.mp hc with hc | hc
            · exact hax hc
            · exact hs hc

lemma nodup_dedupFirstAux [DecidableEq α] (l : List α) :
    ∀ seen : List α, (dedupFirstAux seen l).Nodup := by
  induction l with
  | nil => intro seen; exact List.nodup_nil
  | cons x xs ih =>
    intro seen
    by_cases hx : x ∈ seen
    · rw [dedupFirstAux, if_pos hx]
      exact ih _
    · rw [dedupFirstAux, if_neg hx]
      refine List.Nodup.cons ?_ (ih _)
      intro hmem
      exact ((mem_dedupFirstAux xs _ x).mp hmem).2 (List.mem_cons_self _ _)

lemma sublist_dedupFirstAux [DecidableEq α] (l : List α) :
    ∀ seen : List α, List.Sublist (dedupFirstAux seen l) l := by
  induction l with
  | nil => intro seen; exact List.Sublist.refl _
  | cons x xs ih =>
    intro seen
    by_cases hx : x ∈ seen
    · rw [dedupFirstAux, if_pos hx]
      exact (ih seen).cons x
    · rw [dedupFirstAux, if_neg hx]
      exact (ih _).cons₂ x

lemma dedupFirst_nodup [DecidableEq α] (l : List α) : (dedupFirst l).Nodup :=
  nodup_dedupFirstAux l []

lemma dedupFirst_sublist [DecidableEq α] (l : List α) : List.Sublist (dedupFirst l) l :=
  sublist_dedupFirstAux l []

lemma mem_dedupFirst [DecidableEq α] (l : List α) (a : α) :
    a ∈ dedupFirst l ↔ a ∈ l := by
  rw [dedupFirst, mem_dedupFirstAux]
  simp

lemma log_lines_head_ne {c1 c2 : Char} {r1 r2 : Str} (h : c1 ≠ c2) :
    (c1 :: r1) ≠ (c2 :: r2) := by
  intro he
  injection he with h1 _
  exact h h1

lemma timeoutLogs_nodup (tmp dir : Str) :
    ([logDirLine dir, logSavedLine tmp, logExecLine (cmdOf tmp), logTimeoutLine]
      : List Str).Nodup := by
  have h12 : logDirLine dir ≠ logSavedLine tmp := log_lines_head_ne (by decide)
  have h13 : logDirLine dir ≠ logExecLine (cmdOf tmp) := log_lines_head_ne (by decide)
  have h14 : logDirLine dir ≠ logTimeoutLine := log_lines_head_ne (by decide)
  have h23 : logSavedLine tmp ≠ logExecLine (cmdOf tmp) := log_lines_head_ne (by decide)
  have h24 : logSavedLine tmp ≠ logTimeoutLine := log_lines_head_ne (by decide)
  have h34 : logExecLine (cmdOf tmp) ≠ logTimeoutLine := log_lines_head_ne (by decide)
  simp [List.nodup_cons, h12, h13, h14, h23, h24, h34]

lemma normalTail_logs_nodup (env : ExecEnv) (s u : Str) (pi : Option PageInfo)
    (logs : List Str) (d : Str) (res : Option Json) (fails : List Failure) :
    (normalTail env s u pi logs d res fails).logs.Nodup := by
  unfold normalTail
  cases hs : env.shots with
  | error e =>
    simp only [hs, normalFinish_logs]
    exact dedupFirst_nodup _
  | ok files =>
    simp only [hs, normalFinish_logs]
    exact dedupFirst_nodup _

/-! ## C9 -/

/-- C9 (amended): the logs are deduplicated order-preservingly under the
`passed`, `failed` and `timeout` outcomes (normal completion applies
first-occurrence deduplication, and the timeout path's four fixed progress
lines are already distinct); the `error` path returns the raw accumulation
without deduplication. -/
theorem C9_logs_amended :
    (∀ (env : ExecEnv) (sc url : Str) (pi : Option PageInfo),
      (run_script env sc url pi).status ≠ "error".toList →
      (run_script env sc url pi).logs.Nodup) ∧
    (∀ (rawLogs : List Str) (bugs : List Bug) (recs : List Recommendation)
      (d : Str) (shots : List Screenshot) (res : Option Json) (st : Str),
      (normalFinish rawLogs bugs recs d shots res st).logs = dedupFirst rawLogs) ∧
    (∀ l : List Str, (dedupFirst l).Nodup ∧ List.Sublist (dedupFirst l) l ∧
      (∀ a : Str, a ∈ l → a ∈ dedupFirst l)) := by
  refine ⟨?_, ?_, ?_⟩
  · intro env sc url pi hst
    rcases run_cases env sc url pi with ⟨logs, d, msg, heq⟩ | heq | ⟨logs, d, res, fails, heq⟩
    · rw [heq, errorReturn_status] at hst
      exact absurd rfl hst
    · rw [heq, timeoutReturn_logs]
      exact timeoutLogs_nodup env.tmpFile env.screenshotDir
    · rw [heq]
      exact normalTail_logs_nodup env _ url pi logs d res fails
  · intro rawLogs bugs recs d shots res st
    exact normalFinish_logs rawLogs bugs recs d shots res st
  · intro l
    exact ⟨dedupFirst_nodup l, dedupFirst_sublist l,
      fun a ha => (mem_dedupFirst l a).mpr ha⟩

/-- C9 witness: the amended statement applied to a concrete completed run,
with the non-error hypothesis discharged concretely. -/
theorem C9_witness :
    (run_script envRunFailed ("s".toList) ("u".toList) none).logs.Nodup :=
  C9_logs_amended.1 envRunFailed ("s".toList) ("u".toList) none (by decide)

/-- C9 counterexample: on the error outcome the logs are not deduplicated —
a runner whose stderr repeats a line and whose parsed report makes the
flattening raise yields an `error` response whose logs contain that line
twice. -/
theorem C9_counterexample :
    (run_script envLogsDup ("s".toList) ("u".toList) none).status = "error".toList ∧
    ¬ (run_script envLogsDup ("s".toList) ("u".toList) none).logs.Nodup :=
  ⟨by decide, by decide⟩

/-! ## C8 -/

/-- C8 (amended): the duration field records the formatted elapsed wall time
whenever the subprocess ran to completion (including runs that later take the
error path), and `_format_duration` never yields the `"0s"` placeholder; but
on the timeout path, and on errors raised before the runner completed, the
duration remains the initial `"0s"` placeholder. -/
theorem C8_duration_amended :
    (∀ (tmp dir stdout stderr : Str) (ms : Nat)
      (shots : Except Str (List Screenshot)) (gb gr : GenCall)
      (lo : Str → Option Json) (ps : Str → ScriptAnalysis) (sc url : Str)
      (pi : Option PageInfo),
      (run_script ⟨tmp, dir, SubprocResult.ok stdout stderr ms, shots, gb, gr, lo, ps⟩
        sc url pi).duration = _format_duration ms) ∧
    (∀ (tmp dir : Str) (shots : Except Str (List Screenshot)) (gb gr : GenCall)
      (lo : Str → Option Json) (ps : Str → ScriptAnalysis) (sc url : Str)
      (pi : Option PageInfo),
      (run_script ⟨tmp, dir, SubprocResult.timedOut, shots, gb, gr, lo, ps⟩
        sc url pi).duration = "0s".toList) ∧
    (∀ (tmp dir msg : Str) (shots : Except Str (List Screenshot)) (gb gr : GenCall)
      (lo : Str → Option Json) (ps : Str → ScriptAnalysis) (sc url : Str)
      (pi : Option PageInfo),
      (run_script ⟨tmp, dir, SubprocResult.raisedAtWrite msg, shots, gb, gr, lo, ps⟩
        sc url pi).duration = "0s".toList) ∧
    (∀ (tmp dir msg : Str) (shots : Except Str (List Screenshot)) (gb gr : GenCall)
      (lo : Str → Option Json) (ps : Str → ScriptAnalysis) (sc url : Str)
      (pi : Option PageInfo),
      (run_script ⟨tmp, dir, SubprocResult.raisedAtLaunch msg, shots, gb, gr, lo, ps⟩
        sc url pi).duration = "0s".toList) ∧
    (∀ ms : Nat, _format_duration ms ≠ "0s".toList) := by
  refine ⟨?_, ?_, ?_, ?_, ?_⟩
  · intro tmp dir stdout stderr ms shots gb gr lo ps sc url pi
    simp only [run_script, run_script_full]
    rcases h1 : _extract_json lo stdout with _ | j
    · simp only [h1, normalTail_duration]
    · simp only [h1]
      by_cases ht : j.truthy
      · simp only [ht, if_true]
        rcases h2 : (flattenReport j).err with _ | e
        · simp only [h2, normalTail_duration]
        · simp only [h2, errorReturn_duration]
      · simp only [Bool.not_eq_true] at ht
        simp only [ht, Bool.false_eq_true, if_false, normalTail_duration]
  · intro tmp dir shots gb gr lo ps sc url pi
    rfl
  · intro tmp dir msg shots gb gr lo ps sc url pi
    rfl
  · intro tmp dir msg shots gb gr lo ps sc url pi
    rfl
  · intro ms h
    by_cases hlt : ms < 60000
    · have hm : '.' ∈ _format_duration ms := by
        unfold _format_duration
        rw [if_pos hlt]
        exact List.mem_append_left _ (List.mem_append_right _ (List.mem_cons_self _ _))
      rw [h] at hm
      exact absurd hm (by decide)
    · have hm : 'm' ∈ _format_duration ms := by
        unfold _format_duration
        rw [if_neg hlt]
        exact List.mem_append_left _ (List.mem_append_right _ (List.mem_cons_self _ _))
      rw [h] at hm
      exact absurd hm (by decide)

/-- C8 witness: the non-placeholder conjunct applied at a concrete elapsed
time. -/
theorem C8_witness : _format_duration 0 ≠ "0s".toList :=
  C8_duration_amended.2.2.2.2 0

/-- C8 counterexample: on the timeout outcome — where 300 seconds of wall
time necessarily elapsed — the response's duration is still the initial
`"0s"` placeholder, because the assignment after `subprocess.run` never
executed. -/
theorem C8_counterexample :
    (run_script envTimeoutEx ("s".toList) ("u".toList) none).status = "timeout".toList ∧
    (run_script envTimeoutEx ("s".toList) ("u".toList) none).duration = "0s".toList :=
  ⟨by decide, by decide⟩

/-! ## Recommendation-length lemmas -/

lemma validateFilter_length_le (failures : List Failure) (u : Str)
    (p : Option PageInfo) (sa : ScriptAnalysis) :
    ∀ (cs : List Json) (rs : List Recommendation),
      validateFilter failures u p sa cs = .ok rs → rs.length ≤ cs.length := by
  intro cs
  induction cs with
  | nil =>
    intro rs h
    rw [validateFilter] at h
    injection h with h
    rw [← h]
    exact Nat.le_refl 0
  | cons c cs ih =>
    intro rs h
    rw [validateFilter] at h
    rcases hv : _validate_recommendation c with e | r
    · rw [hv] at h
      exact absurd h (by simp)
    · rw [hv] at h
      rcases hr : validateFilter failures u p sa cs with e2 | rest
      · rw [hr] at h
        exact absurd h (by simp)
      · rw [hr] at h
        injection h with h
        have hrest := ih rest hr
        by_cases hk : (!failures.isEmpty || hasUrlRef u r || hasElemRef p sa r) = true
        · rw [if_pos hk] at h
          rw [← h]
          exact Nat.succ_le_succ hrest
        · rw [if_neg hk] at h
          rw [← h]
          exact Nat.le_trans hrest (Nat.le_succ _)

lemma askGemini_length (loads : Str → Option Json) (ps : Str → ScriptAnalysis)
    (genR : GenCall) (failures : List Failure) (url : Str)
    (tr : Option Json) (sc : Str) (pi : Option PageInfo) (sp : Option Str) :
    1 ≤ (_ask_gemini_for_recommendations loads ps genR failures url tr sc pi sp).length ∧
    (_ask_gemini_for_recommendations loads ps genR failures url tr sc pi sp).length ≤ 5 := by
  unfold _ask_gemini_for_recommendations
  rcases genR with msg | raw
  · simp
  · rcases hl : loads (_strip_llm_fences (pyStrip raw)) with _ | j
    · simp [hl]
    · simp only [hl]
      generalize hc : (match j with | Json.arr es => es | other => [other]) = cands
      rcases hv : validateFilter failures url pi (ps sc) (cands.take 5) with e | validated
      · simp [hv]
      · simp only [hv]
        by_cases he : validated.isEmpty
        · simp [he]
        · have hne : validated ≠ [] := by
            intro hnil
            rw [hnil] at he
            exact he rfl
          have hlen := validateFilter_length_le failures url pi (ps sc) _ _ hv
          have htak : (cands.take 5).length ≤ 5 := by
            rw [List.length_take]
            exact Nat.min_le_left _ _
          simp only [he, if_neg, Bool.false_eq_true, if_false]
          constructor
          · exact Nat.one_le_iff_ne_zero.mpr
              (fun h0 => hne (List.length_eq_zero.mp h0))
          · exact Nat.le_trans hlen htak

lemma normalTail_recs_ex (env : ExecEnv) (s u : Str) (pi : Option PageInfo)
    (logs : List Str) (d : Str) (res : Option Json) (fails : List Failure) :
    ∃ sp, (normalTail env s u pi logs d res fails).recommendations
      = _ask_gemini_for_recommendations env.loads env.parseScript env.genRecs
          fails u res s pi sp := by
  cases hs : env.shots with
  | ok files =>
    refine ⟨(files.head?).map (fun s => s.filename), ?_⟩
    unfold normalTail
    rw [hs]
    rfl
  | error e =>
    refine ⟨none, ?_⟩
    unfold normalTail
    rw [hs]
    rfl

/-! ## C1 -/

/-- C1: for every script, URL, optional page snapshot, and every behaviour of
the browser runner (completion, timeout, crash), the generative calls
(success, exception, arbitrary text), `json.loads`, the script scan and the
screenshot collection, `run_script` returns a response — the embedding is a
total function over all those behaviours — whose status is one of
`passed`/`failed`/`timeout`/`error`, and whose bugs and recommendations are
lists (by type), the recommendation list being between 1 and 5 long. -/
theorem C1_run_script_total : ∀ (env : ExecEnv) (sc url : Str)
    (pi : Option PageInfo),
    (run_script env sc url pi).status ∈
      ["passed".toList, "failed".toList, "timeout".toList, "error".toList] ∧
    1 ≤ (run_script env sc url pi).recommendations.length ∧
    (run_script env sc url pi).recommendations.length ≤ 5 := by
  intro env sc url pi
  rcases run_cases env sc url pi with ⟨logs, d, msg, heq⟩ | heq | ⟨logs, d, res, fails, heq⟩ <;>
    rw [heq]
  · refine ⟨?_, ?_, ?_⟩
    · rw [errorReturn_status]
      decide
    · rw [errorReturn_recs]
      exact (askGemini_length _ _ _ _ _ _ _ _ _).1
    · rw [errorReturn_recs]
      exact (askGemini_length _ _ _ _ _ _ _ _ _).2
  · refine ⟨?_, ?_, ?_⟩
    · rw [timeoutReturn_status]
      decide
    · rw [timeoutReturn_recs]
      exact (askGemini_length _ _ _ _ _ _ _ _ _).1
    · rw [timeoutReturn_recs]
      exact (askGemini_length _ _ _ _ _ _ _ _ _).2
  · obtain ⟨sp, hrecs⟩ := normalTail_recs_ex env (_clean_script sc) url pi logs d res fails
    refine ⟨?_, ?_, ?_⟩
    · rw [normalTail_status]
      by_cases hf : fails.isEmpty
      · rw [if_pos hf]
        decide
      · rw [if_neg hf]
        decide
    · rw [hrecs]
      exact (askGemini_length _ _ _ _ _ _ _ _ _).1
    · rw [hrecs]
      exact (askGemini_length _ _ _ _ _ _ _ _ _).2

/-! ## C3 -/

lemma create_simple_bugs_length (f : List Failure) (u : Str)
    (p : Option PageInfo) : (_create_simple_bugs f u p).length = min 5 f.length := by
  simp [_create_simple_bugs]

lemma validateBugs_length (u : Str) :
    ∀ (ps : List (Json × Failure)) (rs : List Bug),
      validateBugs u ps = .ok rs → rs.length = ps.length := by
  intro ps
  induction ps with
  | nil =>
    intro rs h
    rw [validateBugs] at h
    injection h with h
    rw [← h]
    rfl
  | cons p ps ih =>
    intro rs h
    rw [validateBugs] at h
    rcases hv : validateBug u p.1 p.2 with e | vb
    · rw [hv] at h
      exact absurd h (by simp)
    · rw [hv] at h
      rcases hr : validateBugs u ps with e2 | rest
      · rw [hr] at h
        exact absurd h (by simp)
      · rw [hr] at h
        injection h with h
        rw [← h]
        simp [ih rest hr]

/-- C3: bug generation returns the empty list on empty failures (independent
of the generative call, which is not consulted), and under every generative
behaviour — raised exception, unparseable text, non-list JSON, oversized
arrays — returns at most `min 5 (number of failures)` bugs, the deterministic
simple-bug fallback being itself capped the same way. -/
theorem C3_bug_generation_bounds : ∀ (loads : Str → Option Json)
    (genB : GenCall) (failures : List Failure) (url : Str)
    (pi : Option PageInfo) (sa : ScriptAnalysis),
    _generate_user_friendly_bugs loads genB [] url pi sa = [] ∧
    (_generate_user_friendly_bugs loads genB failures url pi sa).length
      ≤ min 5 failures.length := by
  intro loads genB failures url pi sa
  constructor
  · unfold _generate_user_friendly_bugs
    simp
  · unfold _generate_user_friendly_bugs
    by_cases hf : failures.isEmpty
    · rw [if_pos hf]
      simp
    · rw [if_neg hf]
      have hsim : (_create_simple_bugs failures url pi).length
          ≤ min 5 failures.length := by
        rw [create_simple_bugs_length]
      rcases genB with msg | raw
      · exact hsim
      · rcases hl : loads (_strip_llm_fences (pyStrip raw)) with _ | j
        · simpa [hl] using hsim
        · simp only [hl]
          generalize (match j with | Json.arr es => es | other => [other]) = bs
          rcases hv : validateBugs url ((bs.take 5).zip failures) with e | vb
          · simpa [hv] using hsim
          · simp only [hv]
            have hlen := validateBugs_length url _ _ hv
            rw [hlen, List.length_zip, List.length_take]
            omega

/-! ## C4 -/

lemma validateFilter_relevance (u : Str) (p : Option PageInfo)
    (sa : ScriptAnalysis) :
    ∀ (cs : List Json) (rs : List Recommendation),
      validateFilter [] u p sa cs = .ok rs →
      ∀ r ∈ rs, hasUrlRef u r = true ∨ hasElemRef p sa r = true := by
  intro cs
  induction cs with
  | nil =>
    intro rs h
    rw [validateFilter] at h
    injection h with h
    rw [← h]
    intro r hr
    exact absurd hr (by simp)
  | cons c cs ih =>
    intro rs h
    rw [validateFilter] at h
    rcases hv : _validate_recommendation c with e | r0
    · rw [hv] at h
      exact absurd h (by simp)
    · rw [hv] at h
      rcases hr : validateFilter [] u p sa cs with e2 | rest
      · rw [hr] at h
        exact absurd h (by simp)
      · rw [hr] at h
        injection h with h
        rcases hk : hasUrlRef u r0 || hasElemRef p sa r0 with _ | _
        · rw [show (!List.isEmpty ([] : List Failure) || hasUrlRef u r0
              || hasElemRef p sa r0) = false by simp [hk, Bool.or_assoc]] at h
          rw [if_neg (by simp)] at h
          rw [← h]
          exact ih rest hr
        · rw [show (!List.isEmpty ([] : List Failure) || hasUrlRef u r0
              || hasElemRef p sa r0) = true by simp [Bool.or_assoc, hk]] at h
          rw [if_pos rfl] at h
          rw [← h]
          intro r hrm
          rcases List.mem_cons.mp hrm with rfl | hrm
          · rcases Bool.or_eq_true_iff.mp hk with h1 | h1
            · exact Or.inl h1
            · exact Or.inr h1
          · exact ih rest hr r hrm

lemma validateFilter_keepAll (failures : List Failure) (u : Str)
    (p : Option PageInfo) (sa : ScriptAnalysis) (hne : failures ≠ []) :
    ∀ cs : List Json, validateFilter failures u p sa cs = validateAllRecs cs := by
  intro cs
  have hemp : failures.isEmpty = false := by
    cases failures with
    | nil => exact absurd rfl hne
    | cons a l => rfl
  induction cs with
  | nil => rfl
  | cons c cs ih =>
    rw [validateFilter, validateAllRecs, ih]
    rcases hv : _validate_recommendation c with e | r
    · simp only [hv]
    · simp only [hv]
      rcases hr : validateAllRecs cs with e2 | rest
      · simp only [hr]
      · simp only [hr]
        rw [if_pos (by simp [hemp])]

/-- C4: the recommendation step always returns between 1 and 5
recommendations (at most 5 candidates are considered); a raised generative
call or unparseable text yields exactly the one deterministic fallback; with
no failures a validated candidate survives only if it references the target
URL or an observed page element / script test name longer than 3 characters;
and with failures present every validated candidate is kept. -/
theorem C4_recommendation_invariants : ∀ (loads : Str → Option Json)
    (ps : Str → ScriptAnalysis) (genR : GenCall) (failures : List Failure)
    (url : Str) (tr : Option Json) (sc : Str) (pi : Option PageInfo)
    (sp : Option Str),
    (1 ≤ (_ask_gemini_for_recommendations loads ps genR failures url tr sc pi sp).length ∧
     (_ask_gemini_for_recommendations loads ps genR failures url tr sc pi sp).length ≤ 5) ∧
    (∀ msg, genR = GenCall.raises msg →
      _ask_gemini_for_recommendations loads ps genR failures url tr sc pi sp
        = [_create_user_friendly_fallback failures url pi (ps sc)]) ∧
    (∀ raw, genR = GenCall.returns raw →
      loads (_strip_llm_fences (pyStrip raw)) = none →
      _ask_gemini_for_recommendations loads ps genR failures url tr sc pi sp
        = [_create_user_friendly_fallback failures url pi (ps sc)]) ∧
    (∀ (cs : List Json) (rs : List Recommendation), failures = [] →
      validateFilter failures url pi (ps sc) cs = .ok rs →
      ∀ r ∈ rs, hasUrlRef url r = true ∨ hasElemRef pi (ps sc) r = true) ∧
    (failures ≠ [] → ∀ cs : List Json,
      validateFilter failures url pi (ps sc) cs = validateAllRecs cs) := by
  intro loads ps genR failures url tr sc pi sp
  refine ⟨askGemini_length loads ps genR failures url tr sc pi sp, ?_, ?_, ?_, ?_⟩
  · intro msg hg
    rw [hg]
    rfl
  · intro raw hg hl
    rw [hg]
    unfold _ask_gemini_for_recommendations
    simp only [hl]
  · intro cs rs hemp hv
    rw [hemp] at hv
    exact validateFilter_relevance url pi (ps sc) cs rs hv
  · intro hne cs
    exact validateFilter_keepAll failures url pi (ps sc) hne cs

/-- C4 witness: the relevance conjunct applied at a concrete candidate that
mentions the target URL, with the hypotheses discharged by evaluation. -/
theorem C4_witness :
    ∀ r ∈ [recCandOut],
      hasUrlRef ("example.com".toList) r = true
        ∨ hasElemRef none (parseNone []) r = true :=
  (C4_recommendation_invariants loadsNone parseNone genRaise []
      ("example.com".toList) none [] none none).2.2.2.1 [recCand] [recCandOut]
    rfl rfl

/-! ## C6 lemmas -/

lemma scanEnds_eq_findSome (loads : Str → Option Json) (cs : Str) (start : Nat) :
    ∀ n : Nat, scanEnds loads cs start n
      = (descRange (start + 1) n).findSome? (fun e => loads (pySlice cs start e)) := by
  intro n
  induction n with
  | zero =>
    rw [scanEnds, descRange, if_neg (by omega)]
    rfl
  | succ e ih =>
    by_cases h : e + 1 ≤ start
    · have h2 : e + 1 < start + 1 := by omega
      rw [scanEnds, if_pos h, descRange, if_pos h2]
      rfl
    · have h2 : ¬ (e + 1 < start + 1) := by omega
      rw [scanEnds, if_neg h, descRange, if_neg h2, List.findSome?_cons]
      rcases hl : loads (pySlice cs start (e + 1)) with _ | j
      · simp only [hl, ih]
      · simp only [hl]

lemma jget_obj {j : Json} (h : j.isObjB = true) (k : Str) (d : Json) :
    jget j k d = .ok (jfield j k d) := by
  cases j <;> first
    | rfl
    | simp [Json.isObjB] at h

lemma flatResult_wf {test r : Json} (ht : test.isObjB = true)
    (hr : r.isObjB = true) :
    ∃ ls, flatResult test r = ⟨ls, resultFailsOf test r, none⟩ := by
  unfold flatResult resultFailsOf
  simp only [jget_obj ht, jget_obj hr]
  by_cases hc : ((jfield r kStatus (Json.str sUnknown)).isStrVal sFailedSt
      || (jfield r kStatus (Json.str sUnknown)).isStrVal sTimedOutSt) = true
  · refine ⟨[resultLogLine (jfield test kTitle (Json.str sUnnamed)).pyStr
      (jfield r kStatus (Json.str sUnknown))], ?_⟩
    rw [if_pos hc, if_pos hc]
  · refine ⟨[resultLogLine (jfield test kTitle (Json.str sUnnamed)).pyStr
      (jfield r kStatus (Json.str sUnknown))], ?_⟩
    rw [if_neg hc, if_neg hc]

lemma flatSeq_ex (f : Json → FlatAcc) (g : Json → List Failure) :
    ∀ xs : List Json, (∀ x ∈ xs, ∃ ls, f x = ⟨ls, g x, none⟩) →
      ∃ ls, flatSeq f xs = ⟨ls, xs.flatMap g, none⟩ := by
  intro xs
  induction xs with
  | nil =>
    intro _
    exact ⟨[], rfl⟩
  | cons x xs ih =>
    intro h
    obtain ⟨ls1, h1⟩ := h x (List.mem_cons_self _ _)
    obtain ⟨ls2, h2⟩ := ih (fun y hy => h y (List.mem_cons_of_mem _ hy))
    refine ⟨ls1 ++ ls2, ?_⟩
    rw [flatSeq, h1]
    simp only [h2, List.flatMap_cons]

lemma flatTest_wf {t : Json} (h : wfTest t = true) :
    ∃ ls, flatTest t = ⟨ls, testFailsOf t, none⟩ := by
  rw [wfTest, Bool.and_eq_true] at h
  obtain ⟨hobj, hres⟩ := h
  rcases hfld : jfield t kResults (Json.arr []) with _ | b | n | s2 | es | kvs
  · rw [hfld] at hres; simp at hres
  · rw [hfld] at hres; simp at hres
  · rw [hfld] at hres; simp at hres
  · rw [hfld] at hres; simp at hres
  swap
  · rw [hfld] at hres; simp at hres
  rw [hfld] at hres
  have hall2 : es.all wfResult = true := hres
  obtain ⟨ls, hflat⟩ := flatSeq_ex (flatResult t) (resultFailsOf t) es
    (fun r hrm => flatResult_wf hobj (List.all_eq_true.mp hall2 r hrm))
  refine ⟨ls, ?_⟩
  unfold flatTest
  rw [jget_obj hobj, hfld]
  simp only [iterJ]
  rw [hflat, testFailsOf, hfld]
  rfl

lemma flatSpec_wf {sp : Json} (h : wfSpec sp = true) :
    ∃ ls, flatSpec sp = ⟨ls, specFailsOf sp, none⟩ := by
  rw [wfSpec, Bool.and_eq_true] at h
  obtain ⟨hobj, hts⟩ := h
  rcases hfld : jfield sp kTests (Json.arr []) with _ | b | n | s2 | es | kvs
  · rw [hfld] at hts; simp at hts
  · rw [hfld] at hts; simp at hts
  · rw [hfld] at hts; simp at hts
  · rw [hfld] at hts; simp at hts
  swap
  · rw [hfld] at hts; simp at hts
  rw [hfld] at hts
  have hall2 : es.all wfTest = true := hts
  obtain ⟨ls, hflat⟩ := flatSeq_ex flatTest testFailsOf es
    (fun t htm => flatTest_wf (List.all_eq_true.mp hall2 t htm))
  refine ⟨ls, ?_⟩
  unfold flatSpec
  rw [jget_obj hobj, hfld]
  simp only [iterJ]
  rw [hflat, specFailsOf, hfld]
  rfl

lemma flatSuite_wf {s : Json} (h : wfSuite s = true) :
    ∃ ls, flatSuite s = ⟨ls, suiteFailsOf s, none⟩ := by
  rw [wfSuite, Bool.and_eq_true] at h
  obtain ⟨hobj, hsp⟩ := h
  rcases hfld : jfield s kSpecs (Json.arr []) with _ | b | n | s2 | es | kvs
  · rw [hfld] at hsp; simp at hsp
  · rw [hfld] at hsp; simp at hsp
  · rw [hfld] at hsp; simp at hsp
  · rw [hfld] at hsp; simp at hsp
  swap
  · rw [hfld] at hsp; simp at hsp
  rw [hfld] at hsp
  have hall2 : es.all wfSpec = true := hsp
  obtain ⟨ls, hflat⟩ := flatSeq_ex flatSpec specFailsOf es
    (fun sp hsm => flatSpec_wf (List.all_eq_true.mp hall2 sp hsm))
  refine ⟨ls, ?_⟩
  unfold flatSuite
  rw [jget_obj hobj, hfld]
  simp only [iterJ]
  rw [hflat, suiteFailsOf, hfld]
  rfl

/-! ## C6 -/

/-- C6: the result extractor is total (`none` on the empty string, the direct
parse when the whole text parses, `none` when the marker is absent, and
otherwise the first successful parse of the marker-anchored span shrunk from
the end one character at a time); and on every well-formed structured report
the suite→spec→test→result flattening terminates without raising and
produces exactly the failures of the results whose status is `failed` or
`timedOut`, titles and messages included (messages read from the error
object's `message` field when it is structured, from its stringification
otherwise, as `failMsgOf` states). -/
theorem C6_extract_and_flatten :
    (∀ (loads : Str → Option Json) (stdout : Str) (j : Json),
      stdout.isEmpty = false → loads stdout = some j →
      _extract_json loads stdout = some j) ∧
    (∀ loads : Str → Option Json, _extract_json loads [] = none) ∧
    (∀ (loads : Str → Option Json) (stdout : Str),
      stdout.isEmpty = false → loads stdout = none →
      findSubIdx suitesMarker stdout = none →
      _extract_json loads stdout = none) ∧
    (∀ (loads : Str → Option Json) (stdout : Str) (i : Nat),
      stdout.isEmpty = false → loads stdout = none →
      findSubIdx suitesMarker stdout = some i →
      _extract_json loads stdout
        = (descRange (i + 1) stdout.length).findSome?
            (fun e => loads (pySlice stdout i e))) ∧
    (∀ j : Json, wfReport j = true →
      ∃ ls, flattenReport j = ⟨ls, reportFailures j, none⟩) := by
  refine ⟨?_, ?_, ?_, ?_, ?_⟩
  · intro loads stdout j hne hl
    unfold _extract_json
    rw [if_neg (by rw [hne]; exact Bool.false_ne_true)]
    simp only [hl]
  · intro loads
    rfl
  · intro loads stdout hne hl hm
    unfold _extract_json
    rw [if_neg (by rw [hne]; exact Bool.false_ne_true)]
    simp only [hl, hm]
  · intro loads stdout i hne hl hm
    unfold _extract_json
    rw [if_neg (by rw [hne]; exact Bool.false_ne_true)]
    simp only [hl, hm]
    exact scanEnds_eq_findSome loads stdout i stdout.length
  · intro j h
    rw [wfReport, Bool.and_eq_true] at h
    obtain ⟨hobj, hsu⟩ := h
    rcases hfld : jfield j kSuites (Json.arr []) with _ | b | n | s2 | es | kvs
    · rw [hfld] at hsu; simp at hsu
    · rw [hfld] at hsu; simp at hsu
    · rw [hfld] at hsu; simp at hsu
    · rw [hfld] at hsu; simp at hsu
    swap
    · rw [hfld] at hsu; simp at hsu
    rw [hfld] at hsu
    have hall2 : es.all wfSuite = true := hsu
    obtain ⟨ls, hflat⟩ := flatSeq_ex flatSuite suiteFailsOf es
      (fun s hsm => flatSuite_wf (List.all_eq_true.mp hall2 s hsm))
    refine ⟨ls, ?_⟩
    unfold flattenReport
    rw [jget_obj hobj, hfld]
    simp only [iterJ]
    rw [hflat, reportFailures, hfld]
    rfl

/-- C6 witness: the flattening correspondence applied to a concrete
well-formed report with one failed and one passed result. -/
theorem C6_witness :
    ∃ ls, flattenReport reportFailedJson
      = ⟨ls, reportFailures reportFailedJson, none⟩ :=
  C6_extract_and_flatten.2.2.2.2 reportFailedJson (by decide)
